import Mathlib

/-!
Shallow embedding of the docker-machine Hetzner driver's resource
orchestration and lifecycle logic, together with proofs of the spec's
claims about it.

The Go driver talks to the Hetzner cloud API through a client object and
to the local machine through the filesystem and the SSH key generator.
Both are modelled as explicit oracles (`Client`, `CreateEnv`): every
remote or local-IO call site in the source becomes an application of an
oracle field, and the driver's own logic (branching, caching, state
updates, rollback bookkeeping, error wrapping) is translated literally.
Go's `(value, error)` returns become `Except String` values; nullable
pointers become `Option`; the `instrumented` wrapper from
instrumentation_stub.go is the identity and is dropped.

Functions that mutate the driver take and return a `Driver` record; in
addition they return a list of observable events (`Ev`): remote calls
made, rollback closures registered on the dangling list, rollback
closures invoked, and sleeps.  These events let the theorems speak about
"no further remote lookup", "every registered closure is invoked in
registration order", and "polls at the configured interval" without
instrumenting the logic itself.
-/

namespace HetznerDriver

/-- Resolved remote entities (hcloud-go records, reduced to the fields the
driver logic reads). -/
structure HLocation where
  id : Int
  name : String
deriving DecidableEq, Repr

structure HServerType where
  id : Int
  name : String
  architecture : String
deriving DecidableEq, Repr

structure HImage where
  id : Int
  name : String
deriving DecidableEq, Repr

structure HSSHKey where
  id : Int
  name : String
  fingerprint : String
deriving DecidableEq, Repr

structure HPrimaryIP where
  id : Int
  name : String
deriving DecidableEq, Repr

structure HPlacementGroup where
  id : Int
  name : String
  labels : List (String × String)
  servers : List Int
deriving DecidableEq, Repr

structure HNetwork where
  id : Int
  name : String
deriving DecidableEq, Repr

structure HFirewall where
  id : Int
  name : String
deriving DecidableEq, Repr

structure HVolume where
  id : Int
  name : String
deriving DecidableEq, Repr

/-- Public-network block of a server record.  `ipv4` is the textual IPv4
address; `ipv6host` stands for the address obtained from the IPv6 block by
the driver's lowest-host-bit heuristic (the heuristic itself is bit
arithmetic on `net.IP` and is kept abstract: no claim mentions it). -/
structure HPublicNet where
  ipv4 : String
  ipv6host : String
deriving DecidableEq, Repr

/-- Server record.  `privateNet` is the list of attached private-network
addresses (`nil` slice in Go = `[]`). -/
structure HServer where
  id : Int
  name : String
  status : String
  publicNet : HPublicNet
  privateNet : List String
  placementGroup : Option HPlacementGroup
deriving DecidableEq, Repr

/-- Asynchronous action record: identifier, command, status string,
progress, error payload (`act.Error()`). -/
structure HAction where
  id : Int
  command : String
  status : String
  progress : Int
  errMessage : String
deriving DecidableEq, Repr

/-- Result of `Server.Create`: the server, the main action and the
follow-up actions. -/
structure HServerCreateResult where
  server : HServer
  action : HAction
  nextActions : List HAction
deriving DecidableEq, Repr

/-- A compensating closure appended to the driver's `dangling` list.  In Go
these are `func()` closures; each captures exactly one deletion, so they
are represented by the deletion they would perform. -/
inductive Dangling
| deleteKey (k : HSSHKey)
| deletePGrp (g : HPlacementGroup)
deriving DecidableEq, Repr

/-- Remote calls the driver can make (the argument is the lookup key the
source passes). -/
inductive RemoteOp
| locGetByName (name : String)
| typeGetByName (name : String)
| imageGetByID (id : Int)
| imageGetByNameArch (name : String) (arch : String)
| keyGetByID (id : Int)
| keyGetByFingerprint (fp : String)
| keyCreate (name : String)
| keyDelete (id : Option Int)
| pgrpGetOp (name : String)
| pgrpAllOp (sel : String)
| pgrpCreateOp (name : String)
| pgrpDeleteOp (id : Int)
| primaryIPGetOp (ref : String)
| serverGetByID (id : Int)
| serverCreateOp (name : String)
| serverDeleteOp (id : Int)
| networkGet (ref : String)
| firewallGet (ref : String)
| volumeGet (ref : String)
| actionGetByID (id : Int)
deriving DecidableEq, Repr

/-- Observable events of a driver operation: a remote call, the
registration of a rollback closure on the dangling list, the invocation of
a rollback closure, and a sleep of the given number of seconds. -/
inductive Ev
| rem (op : RemoteOp)
| reg (a : Dangling)
| inv (a : Dangling)
| slept (secs : Int)
deriving DecidableEq, Repr

/-- The rollback closures registered in an event trace, in order. -/
def regsOf (evs : List Ev) : List Dangling :=
  evs.filterMap fun e => match e with
    | Ev.reg a => some a
    | _ => none

/-- The rollback closures invoked in an event trace, in order. -/
def invsOf (evs : List Ev) : List Dangling :=
  evs.filterMap fun e => match e with
    | Ev.inv a => some a
    | _ => none

/-- The `Driver` aggregate (struct `Driver`, part_005 lines 18-65, plus the
machine name and IP address it inherits from `BaseDriver`). -/
structure Driver where
  accessToken : String := ""
  image : String := ""
  imageID : Int := 0
  imageArch : String := ""
  cachedImage : Option HImage := none
  serverTyp : String := ""
  cachedType : Option HServerType := none
  location : String := ""
  cachedLocation : Option HLocation := none
  keyID : Int := 0
  cachedKey : Option HSSHKey := none
  isExistingKey : Bool := false
  originalKey : String := ""
  dangling : List Dangling := []
  serverID : Int := 0
  cachedServer : Option HServer := none
  userData : String := ""
  userDataFile : String := ""
  volumes : List String := []
  networks : List String := []
  usePrivateNetwork : Bool := false
  disablePublic4 : Bool := false
  disablePublic6 : Bool := false
  primaryIPv4 : String := ""
  cachedPrimaryIPv4 : Option HPrimaryIP := none
  primaryIPv6 : String := ""
  cachedPrimaryIPv6 : Option HPrimaryIP := none
  firewalls : List String := []
  serverLabels : List (String × String) := []
  keyLabels : List (String × String) := []
  placementGroup : String := ""
  cachedPGrp : Option HPlacementGroup := none
  additionalKeys : List String := []
  additionalKeyIDs : List Int := []
  cachedAdditionalKeys : List HSSHKey := []
  waitOnError : Int := 0
  waitOnPolling : Int := 1
  waitForRunningTimeout : Int := 0
  usesDfr : Bool := false
  machineName : String := ""
  ipAddress : String := ""
deriving DecidableEq, Repr

/-- Flag names and defaults (part_005 lines 67-114). -/
def defaultImage : String := "ubuntu-20.04"

def flagImage : String := "hetzner-image"

def flagImageID : String := "hetzner-image-id"

def flagImageArch : String := "hetzner-image-arch"

def flagUserData : String := "hetzner-user-data"

def flagUserDataFile : String := "hetzner-user-data-file"

def flagServerLabel : String := "hetzner-server-label"

def flagKeyLabel : String := "hetzner-key-label"

def legacyFlagUserDataFromFile : String := "hetzner-user-data-from-file"

def labelAutoSpreadPg : String := "auto-spread"

def labelAutoCreated : String := "auto-created"

def autoSpreadPgName : String := "__auto_spread"

def labelNamespace : String := "docker-machine"

/-- `labelName` prefixes a label key with the machine namespace. -/
def labelName (name : String) : String := labelNamespace ++ "/" ++ name

/-- Errors raised by flag validation (`d.flagFailure(format, args...)` and
the one plain `fmt.Errorf` in `setLabelsFromFlags`), kept structured so
that theorems can say which flags an error names. -/
inductive FlagError
| mutuallyExclusive (flagA : String) (flagB : String)
| serverLabelNotKV (label : String)
| keyLabelNotKV (label : String)
| other (msg : String)
deriving DecidableEq, Repr

/-- The subset of `drivers.DriverOptions` the embedded functions read. -/
structure DriverOpts where
  strings : String → String
  bools : String → Bool
  stringSlices : String → List String

/-- `legacyDefaultImages` (flag_processing.go lines 13-18). -/
def legacyDefaultImages : List String :=
  [defaultImage, "ubuntu-18.04", "ubuntu-16.04", "debian-9"]

/-- `isDefaultImageName` (flag_processing.go lines 20-27). -/
def isDefaultImageName (imageName : String) : Bool :=
  legacyDefaultImages.contains imageName

/-- `verifyImageFlags` (flag_processing.go lines 41-51). -/
def verifyImageFlags (d : Driver) : Except FlagError Driver :=
  if d.imageID ≠ 0 ∧ d.image ≠ "" ∧ ¬ isDefaultImageName d.image then
    Except.error (FlagError.mutuallyExclusive flagImage flagImageID)
  else if d.imageID ≠ 0 ∧ d.imageArch ≠ "" then
    Except.error (FlagError.mutuallyExclusive flagImageArch flagImageID)
  else if d.imageID = 0 ∧ d.image = "" then
    Except.ok { d with image := defaultImage }
  else
    Except.ok d

/-- `setUserDataFlags` (flag_processing.go lines 78-101). -/
def setUserDataFlags (opts : DriverOpts) (d : Driver) : Except FlagError Driver :=
  let userData := opts.strings flagUserData
  let userDataFile := opts.strings flagUserDataFile
  if opts.bools legacyFlagUserDataFromFile then
    if userDataFile ≠ "" then
      Except.error (FlagError.mutuallyExclusive flagUserDataFile legacyFlagUserDataFromFile)
    else
      Except.ok { d with usesDfr := true, userDataFile := userData }
  else
    let d1 := { d with userData := userData, userDataFile := userDataFile }
    if d1.userData ≠ "" ∧ d1.userDataFile ≠ "" then
      Except.error (FlagError.mutuallyExclusive flagUserData flagUserDataFile)
    else
      Except.ok d1

/-- `getUserData` (placement_groups.go lines 188-199): empty file path
means the inline value is used; otherwise the file is read.  `fs` models
`os.ReadFile`. -/
def getUserData (fs : String → Except String String) (d : Driver) : Except String String :=
  if d.userDataFile = "" then Except.ok d.userData
  else fs d.userDataFile

/-- `strings.SplitN(label, sep, 2)` specialised to a single-character
separator: split at the first occurrence only.  Returns `none` when the
separator does not occur (Go then yields a one-element slice). -/
def splitFirstAt (sep : Char) : List Char → Option (List Char × List Char)
  | [] => none
  | c :: cs =>
    if c = sep then some ([], cs)
    else match splitFirstAt sep cs with
      | some (a, b) => some (c :: a, b)
      | none => none

/-- Split a label argument at its first `=` (the `strings.SplitN(label,
"=", 2)` call in `setLabelsFromFlags`). -/
def splitLabel (label : String) : Option (String × String) :=
  match splitFirstAt '=' label.toList with
  | some (a, b) => some (String.mk a, String.mk b)
  | none => none

/-- Go map assignment `m[k] = v` on the association-list model: replace
the existing binding or append a fresh one. -/
def mapPut (m : List (String × String)) (k v : String) : List (String × String) :=
  if (m.lookup k).isSome then
    m.map fun p => if p.1 = k then (k, v) else p
  else
    m ++ [(k, v)]

/-- The server-label loop of `setLabelsFromFlags`. -/
def putServerLabels (m : List (String × String)) :
    List String → Except FlagError (List (String × String))
  | [] => Except.ok m
  | label :: rest =>
    match splitLabel label with
    | none => Except.error (FlagError.serverLabelNotKV label)
    | some (k, v) => putServerLabels (mapPut m k v) rest

/-- The key-label loop of `setLabelsFromFlags`. -/
def putKeyLabels (m : List (String × String)) :
    List String → Except FlagError (List (String × String))
  | [] => Except.ok m
  | label :: rest =>
    match splitLabel label with
    | none => Except.error (FlagError.keyLabelNotKV label)
    | some (k, v) => putKeyLabels (mapPut m k v) rest

/-- `setLabelsFromFlags` (flag_processing.go lines 103-121): both maps are
reset to empty and then filled from the flag arguments; a malformed entry
aborts with an error. -/
def setLabelsFromFlags (opts : DriverOpts) (d : Driver) : Except FlagError Driver :=
  match putServerLabels [] (opts.stringSlices flagServerLabel) with
  | Except.error e => Except.error e
  | Except.ok srvLabels =>
    match putKeyLabels [] (opts.stringSlices flagKeyLabel) with
    | Except.error e => Except.error e
    | Except.ok kLabels =>
      Except.ok { d with serverLabels := srvLabels, keyLabels := kLabels }

/-- `state.State` values the driver produces (libmachine). -/
inductive MachineState
| unknown
| starting
| running
| stopped
deriving DecidableEq, Repr

/-- `GetState` (part_005 lines 521-540).  `look` models
`d.getClient().Server.GetByID` applied to `d.ServerID`; the Go function
returns a `(state.State, error)` pair, modelled as
`MachineState × Option String` (`MachineState.unknown` is `state.None`). -/
def GetState (look : Int → Except String (Option HServer)) (d : Driver) :
    MachineState × Option String :=
  match look d.serverID with
  | Except.error e => (MachineState.unknown, some ("could not get server by ID: " ++ e))
  | Except.ok none => (MachineState.unknown, some "server not found")
  | Except.ok (some srv) =>
    if srv.status = "initializing" then (MachineState.starting, none)
    else if srv.status = "running" then (MachineState.running, none)
    else if srv.status = "off" then (MachineState.stopped, none)
    else (MachineState.unknown, none)

/-- `hcloud.ServerCreateOpts` as assembled by `makeCreateServerOptions`
(the public-net block mirrors `hcloud.ServerCreatePublicNet`). -/
structure ServerCreatePublicNet where
  enableIPv4 : Bool
  enableIPv6 : Bool
  ipv4 : Option HPrimaryIP
  ipv6 : Option HPrimaryIP
deriving DecidableEq, Repr

structure ServerCreateOpts where
  name : String := ""
  userData : String := ""
  labels : List (String × String) := []
  placementGroup : Option HPlacementGroup := none
  publicNet : Option ServerCreatePublicNet := none
  networks : List HNetwork := []
  firewalls : List HFirewall := []
  volumes : List HVolume := []
  location : Option HLocation := none
  serverTyp : Option HServerType := none
  image : Option HImage := none
  sshKeys : List HSSHKey := []
deriving DecidableEq, Repr

/-- The remote API client (hcloud-go), as an oracle: each field models one
client call the driver makes.  `pgrpCreate` returns the
`PlacementGroupCreateResult.PlacementGroup` pointer and the error
independently, exactly as the Go call does.  `parseIPSucceeds` stands for
the local test `net.ParseIP(raw) != nil`. -/
structure Client where
  locationGetByName : String → Except String (Option HLocation)
  serverTypeGetByName : String → Except String (Option HServerType)
  imageGetByID : Int → Except String (Option HImage)
  imageGetByNameAndArchitecture : String → String → Except String (Option HImage)
  sshKeyGetByID : Int → Except String (Option HSSHKey)
  sshKeyGetByFingerprint : String → Except String (Option HSSHKey)
  sshKeyCreate : String → String → List (String × String) → Except String (Option HSSHKey)
  sshKeyDelete : Option Int → Except String Unit
  primaryIPGetByIP : String → Except String (Option HPrimaryIP)
  primaryIPGet : String → Except String (Option HPrimaryIP)
  pgrpAllWithSelector : String → Except String (List HPlacementGroup)
  pgrpGet : String → Except String (Option HPlacementGroup)
  pgrpCreate : String → List (String × String) → Option HPlacementGroup × Option String
  pgrpDelete : Int → Except String Unit
  networkGet : String → Except String (Option HNetwork)
  firewallGet : String → Except String (Option HFirewall)
  volumeGet : String → Except String (Option HVolume)
  serverGetByID : Int → Except String (Option HServer)
  serverCreate : ServerCreateOpts → Except String HServerCreateResult
  serverDeleteWithResult : Int → Except String HAction
  parseIPSucceeds : String → Bool

/-- `getLocation` (hetzner_query.go lines 17-31): memoized lookup by the
configured location name. -/
def getLocation (c : Client) (d : Driver) :
    Except String HLocation × Driver × List Ev :=
  match d.cachedLocation with
  | some loc => (Except.ok loc, d, [])
  | none =>
    match c.locationGetByName d.location with
    | Except.error e =>
      (Except.error ("could not get location by name: " ++ e), d,
        [Ev.rem (RemoteOp.locGetByName d.location)])
    | Except.ok none =>
      (Except.error ("unknown location: " ++ d.location), d,
        [Ev.rem (RemoteOp.locGetByName d.location)])
    | Except.ok (some loc) =>
      (Except.ok loc, { d with cachedLocation := some loc },
        [Ev.rem (RemoteOp.locGetByName d.location)])

/-- `getType` (hetzner_query.go lines 33-47): memoized lookup by the
configured server-type name. -/
def getType (c : Client) (d : Driver) :
    Except String HServerType × Driver × List Ev :=
  match d.cachedType with
  | some stype => (Except.ok stype, d, [])
  | none =>
    match c.serverTypeGetByName d.serverTyp with
    | Except.error e =>
      (Except.error ("could not get type by name: " ++ e), d,
        [Ev.rem (RemoteOp.typeGetByName d.serverTyp)])
    | Except.ok none =>
      (Except.error ("unknown server type: " ++ d.serverTyp), d,
        [Ev.rem (RemoteOp.typeGetByName d.serverTyp)])
    | Except.ok (some stype) =>
      (Except.ok stype, { d with cachedType := some stype },
        [Ev.rem (RemoteOp.typeGetByName d.serverTyp)])

/-- `getImageArchitectureForLookup` (hetzner_query.go lines 84-94): an
explicitly configured architecture wins; otherwise it is inferred from the
resolved server type. -/
def getImageArchitectureForLookup (c : Client) (d : Driver) :
    Except String String × Driver × List Ev :=
  if d.imageArch ≠ "" then (Except.ok d.imageArch, d, [])
  else
    match getType c d with
    | (Except.error e, d1, t) => (Except.error e, d1, t)
    | (Except.ok stype, d1, t) => (Except.ok stype.architecture, d1, t)

/-- `getImage` (hetzner_query.go lines 49-82): memoized; lookup by ID when
an image ID is configured, otherwise by name and architecture. -/
def getImage (c : Client) (d : Driver) :
    Except String HImage × Driver × List Ev :=
  match d.cachedImage with
  | some img => (Except.ok img, d, [])
  | none =>
    if d.imageID ≠ 0 then
      match c.imageGetByID d.imageID with
      | Except.error e =>
        (Except.error ("could not get image by id " ++ toString d.imageID ++ ": " ++ e), d,
          [Ev.rem (RemoteOp.imageGetByID d.imageID)])
      | Except.ok none =>
        (Except.error ("image id not found: " ++ toString d.imageID), d,
          [Ev.rem (RemoteOp.imageGetByID d.imageID)])
      | Except.ok (some img) =>
        (Except.ok img, { d with cachedImage := some img },
          [Ev.rem (RemoteOp.imageGetByID d.imageID)])
    else
      match getImageArchitectureForLookup c d with
      | (Except.error e, d1, t) =>
        (Except.error ("could not determine image architecture: " ++ e), d1, t)
      | (Except.ok arch, d1, t) =>
        match c.imageGetByNameAndArchitecture d1.image arch with
        | Except.error e =>
          (Except.error ("could not get image by name " ++ d1.image ++ ": " ++ e), d1,
            t ++ [Ev.rem (RemoteOp.imageGetByNameArch d1.image arch)])
        | Except.ok none =>
          (Except.error ("image not found: " ++ d1.image ++ "[" ++ arch ++ "]"), d1,
            t ++ [Ev.rem (RemoteOp.imageGetByNameArch d1.image arch)])
        | Except.ok (some img) =>
          (Except.ok img, { d1 with cachedImage := some img },
            t ++ [Ev.rem (RemoteOp.imageGetByNameArch d1.image arch)])

/-- `getKey` (hetzner_query.go lines 97-111): memoized lookup of the
primary SSH key by its recorded ID. -/
def getKey (c : Client) (d : Driver) :
    Except String HSSHKey × Driver × List Ev :=
  match d.cachedKey with
  | some key => (Except.ok key, d, [])
  | none =>
    match c.sshKeyGetByID d.keyID with
    | Except.error e =>
      (Except.error ("could not get sshkey by ID: " ++ e), d,
        [Ev.rem (RemoteOp.keyGetByID d.keyID)])
    | Except.ok none =>
      (Except.error ("key not found: " ++ toString d.keyID), d,
        [Ev.rem (RemoteOp.keyGetByID d.keyID)])
    | Except.ok (some key) =>
      (Except.ok key, { d with cachedKey := some key },
        [Ev.rem (RemoteOp.keyGetByID d.keyID)])

/-- `resolvePrimaryIP` (placement_groups.go lines 134-155): resolve by
literal address when the raw value parses as an IP, else by ID or name. -/
def resolvePrimaryIP (c : Client) (raw : String) :
    Except String HPrimaryIP × List Ev :=
  let res := if c.parseIPSucceeds raw then c.primaryIPGetByIP raw else c.primaryIPGet raw
  match res with
  | Except.error e =>
    (Except.error ("could not get primary IP: " ++ e), [Ev.rem (RemoteOp.primaryIPGetOp raw)])
  | Except.ok (some ip) => (Except.ok ip, [Ev.rem (RemoteOp.primaryIPGetOp raw)])
  | Except.ok none =>
    (Except.error ("primary IP not found: " ++ raw), [Ev.rem (RemoteOp.primaryIPGetOp raw)])

/-- `getPrimaryIPv4` (placement_groups.go lines 109-120): absent when no
reference is configured; memoized (the cache is written even on a failed
resolution, where it stays `none`). -/
def getPrimaryIPv4 (c : Client) (d : Driver) :
    Except String (Option HPrimaryIP) × Driver × List Ev :=
  if d.primaryIPv4 = "" then (Except.ok none, d, [])
  else match d.cachedPrimaryIPv4 with
  | some ip => (Except.ok (some ip), d, [])
  | none =>
    match resolvePrimaryIP c d.primaryIPv4 with
    | (Except.error e, t) => (Except.error e, { d with cachedPrimaryIPv4 := none }, t)
    | (Except.ok ip, t) => (Except.ok (some ip), { d with cachedPrimaryIPv4 := some ip }, t)

/-- `getPrimaryIPv6` (placement_groups.go lines 122-132): as for IPv4. -/
def getPrimaryIPv6 (c : Client) (d : Driver) :
    Except String (Option HPrimaryIP) × Driver × List Ev :=
  if d.primaryIPv6 = "" then (Except.ok none, d, [])
  else match d.cachedPrimaryIPv6 with
  | some ip => (Except.ok (some ip), d, [])
  | none =>
    match resolvePrimaryIP c d.primaryIPv6 with
    | (Except.error e, t) => (Except.error e, { d with cachedPrimaryIPv6 := none }, t)
    | (Except.ok ip, t) => (Except.ok (some ip), { d with cachedPrimaryIPv6 := some ip }, t)

/-- `getServerHandleNullable` (hetzner_query.go lines 145-161): memoized
lookup of the server record by the stored identifier; a zero identifier is
an immediate failure. -/
def getServerHandleNullable (c : Client) (d : Driver) :
    Except String (Option HServer) × Driver × List Ev :=
  match d.cachedServer with
  | some srv => (Except.ok (some srv), d, [])
  | none =>
    if d.serverID = 0 then (Except.error "server ID was 0", d, [])
    else
      match c.serverGetByID d.serverID with
      | Except.error e =>
        (Except.error ("could not get client by ID: " ++ e), d,
          [Ev.rem (RemoteOp.serverGetByID d.serverID)])
      | Except.ok srv =>
        (Except.ok srv, { d with cachedServer := srv },
          [Ev.rem (RemoteOp.serverGetByID d.serverID)])

/-- `makePlacementGroup` (placement_groups.go lines 37-58): create a
spread group; whenever the create result carries a (non-nil) group, a
compensating delete closure is appended to the dangling list, even when
the call also returned an error; the error, if any, is then returned
wrapped. -/
def makePlacementGroup (c : Client) (d : Driver) (name : String)
    (labels : List (String × String)) :
    Except String (Option HPlacementGroup) × Driver × List Ev :=
  let res := c.pgrpCreate name labels
  let d1 := match res.1 with
    | some g => { d with dangling := d.dangling ++ [Dangling.deletePGrp g] }
    | none => d
  let t := match res.1 with
    | some g => [Ev.rem (RemoteOp.pgrpCreateOp name), Ev.reg (Dangling.deletePGrp g)]
    | none => [Ev.rem (RemoteOp.pgrpCreateOp name)]
  match res.2 with
  | some e => (Except.error ("could not create placement group: " ++ e), d1, t)
  | none => (Except.ok res.1, d1, t)

/-- `getAutoPlacementGroup` (placement_groups.go lines 16-35): find a
group carrying the reserved auto-spread label, or create one labelled
auto-spread and auto-created. -/
def getAutoPlacementGroup (c : Client) (d : Driver) :
    Except String (Option HPlacementGroup) × Driver × List Ev :=
  match c.pgrpAllWithSelector (labelName labelAutoSpreadPg) with
  | Except.error e =>
    (Except.error e, d, [Ev.rem (RemoteOp.pgrpAllOp (labelName labelAutoSpreadPg))])
  | Except.ok (g :: _) =>
    (Except.ok (some g), d, [Ev.rem (RemoteOp.pgrpAllOp (labelName labelAutoSpreadPg))])
  | Except.ok [] =>
    let (r, d1, t) := makePlacementGroup c d "Docker-Machine auto spread"
      [(labelName labelAutoSpreadPg, "true"), (labelName labelAutoCreated, "true")]
    (r, d1, Ev.rem (RemoteOp.pgrpAllOp (labelName labelAutoSpreadPg)) :: t)

/-- `getPlacementGroup` (placement_groups.go lines 60-85): absent when no
group is requested; the auto-spread path caches its result; the named path
returns an existing group uncached, or creates one labelled
auto-created. -/
def getPlacementGroup (c : Client) (d : Driver) :
    Except String (Option HPlacementGroup) × Driver × List Ev :=
  if d.placementGroup = "" then (Except.ok none, d, [])
  else match d.cachedPGrp with
  | some g => (Except.ok (some g), d, [])
  | none =>
    let name := d.placementGroup
    if name = autoSpreadPgName then
      match getAutoPlacementGroup c d with
      | (Except.ok g, d1, t) => (Except.ok g, { d1 with cachedPGrp := g }, t)
      | (Except.error e, d1, t) => (Except.error e, { d1 with cachedPGrp := none }, t)
    else
      match c.pgrpGet name with
      | Except.error e =>
        (Except.error ("could not get placement group: " ++ e), d,
          [Ev.rem (RemoteOp.pgrpGetOp name)])
      | Except.ok (some g) =>
        (Except.ok (some g), d, [Ev.rem (RemoteOp.pgrpGetOp name)])
      | Except.ok none =>
        let (r, d1, t) := makePlacementGroup c d name [(labelName labelAutoCreated, "true")]
        (r, d1, Ev.rem (RemoteOp.pgrpGetOp name) :: t)

/-- `setPublicNetIfRequired` (placement_groups.go lines 157-177): resolve
the optional primary IPs and, when any public-net option deviates from the
default, fill the create request's public-net block. -/
def setPublicNetIfRequired (c : Client) (d : Driver) (srvopts : ServerCreateOpts) :
    Except String ServerCreateOpts × Driver × List Ev :=
  match getPrimaryIPv4 c d with
  | (Except.error e, d1, t1) => (Except.error e, d1, t1)
  | (Except.ok pip4, d1, t1) =>
    match getPrimaryIPv6 c d1 with
    | (Except.error e, d2, t2) => (Except.error e, d2, t1 ++ t2)
    | (Except.ok pip6, d2, t2) =>
      if d2.disablePublic4 ∨ d2.disablePublic6 ∨ pip4.isSome ∨ pip6.isSome then
        (Except.ok { srvopts with publicNet := some {
            enableIPv4 := ¬ d2.disablePublic4 ∨ pip4.isSome,
            enableIPv6 := ¬ d2.disablePublic6 ∨ pip6.isSome,
            ipv4 := pip4, ipv6 := pip6 } }, d2, t1 ++ t2)
      else (Except.ok srvopts, d2, t1 ++ t2)

/-- `createNetworks` (placement_groups.go lines 201-214): resolve each
referenced network, failing hard on a transport error or an unknown
reference. -/
def createNetworks (c : Client) : List String → Except String (List HNetwork) × List Ev
  | [] => (Except.ok [], [])
  | ref :: rest =>
    match c.networkGet ref with
    | Except.error e =>
      (Except.error ("could not get network by ID or name: " ++ e),
        [Ev.rem (RemoteOp.networkGet ref)])
    | Except.ok none =>
      (Except.error ("network " ++ ref ++ " not found"), [Ev.rem (RemoteOp.networkGet ref)])
    | Except.ok (some n) =>
      match createNetworks c rest with
      | (Except.error e, t) => (Except.error e, Ev.rem (RemoteOp.networkGet ref) :: t)
      | (Except.ok ns, t) => (Except.ok (n :: ns), Ev.rem (RemoteOp.networkGet ref) :: t)

/-- `createFirewalls` (placement_groups.go lines 216-229). -/
def createFirewalls (c : Client) : List String → Except String (List HFirewall) × List Ev
  | [] => (Except.ok [], [])
  | ref :: rest =>
    match c.firewallGet ref with
    | Except.error e =>
      (Except.error ("could not get firewall by ID or name: " ++ e),
        [Ev.rem (RemoteOp.firewallGet ref)])
    | Except.ok none =>
      (Except.error ("firewall " ++ ref ++ " not found"), [Ev.rem (RemoteOp.firewallGet ref)])
    | Except.ok (some f) =>
      match createFirewalls c rest with
      | (Except.error e, t) => (Except.error e, Ev.rem (RemoteOp.firewallGet ref) :: t)
      | (Except.ok fs, t) => (Except.ok (f :: fs), Ev.rem (RemoteOp.firewallGet ref) :: t)

/-- `createVolumes` (placement_groups.go lines 231-244). -/
def createVolumes (c : Client) : List String → Except String (List HVolume) × List Ev
  | [] => (Except.ok [], [])
  | ref :: rest =>
    match c.volumeGet ref with
    | Except.error e =>
      (Except.error ("could not get volume by ID or name: " ++ e),
        [Ev.rem (RemoteOp.volumeGet ref)])
    | Except.ok none =>
      (Except.error ("volume " ++ ref ++ " not found"), [Ev.rem (RemoteOp.volumeGet ref)])
    | Except.ok (some v) =>
      match createVolumes c rest with
      | (Except.error e, t) => (Except.error e, Ev.rem (RemoteOp.volumeGet ref) :: t)
      | (Except.ok vs, t) => (Except.ok (v :: vs), Ev.rem (RemoteOp.volumeGet ref) :: t)

/-- `makeCreateServerOptions` (placement_groups.go lines 142-186; the
part_005-era variant in driver.go is line-for-line the same apart from
error wrapping): assemble the full server-creation request from the
resolved placement group, user data, labels, public-net settings,
network/firewall/volume references, location, type, image and keys.
`fs` models `os.ReadFile` for the user-data file. -/
def makeCreateServerOptions (c : Client) (fs : String → Except String String) (d : Driver) :
    Except String ServerCreateOpts × Driver × List Ev :=
  match getPlacementGroup c d with
  | (Except.error e, d1, t1) => (Except.error e, d1, t1)
  | (Except.ok pgrp, d1, t1) =>
    match getUserData fs d1 with
    | Except.error e => (Except.error e, d1, t1)
    | Except.ok userData =>
      match setPublicNetIfRequired c d1
          { name := d1.machineName, userData := userData,
            labels := d1.serverLabels, placementGroup := pgrp } with
      | (Except.error e, d2, t2) => (Except.error e, d2, t1 ++ t2)
      | (Except.ok srvopts1, d2, t2) =>
        match createNetworks c d2.networks with
        | (Except.error e, t3) => (Except.error e, d2, t1 ++ t2 ++ t3)
        | (Except.ok nets, t3) =>
          match createFirewalls c d2.firewalls with
          | (Except.error e, t4) => (Except.error e, d2, t1 ++ t2 ++ t3 ++ t4)
          | (Except.ok fws, t4) =>
            match createVolumes c d2.volumes with
            | (Except.error e, t5) => (Except.error e, d2, t1 ++ t2 ++ t3 ++ t4 ++ t5)
            | (Except.ok vols, t5) =>
              match getLocation c d2 with
              | (Except.error e, d3, t6) =>
                (Except.error ("could not get location: " ++ e), d3,
                  t1 ++ t2 ++ t3 ++ t4 ++ t5 ++ t6)
              | (Except.ok loc, d3, t6) =>
                match getType c d3 with
                | (Except.error e, d4, t7) =>
                  (Except.error ("could not get type: " ++ e), d4,
                    t1 ++ t2 ++ t3 ++ t4 ++ t5 ++ t6 ++ t7)
                | (Except.ok stype, d4, t7) =>
                  match getImage c d4 with
                  | (Except.error e, d5, t8) =>
                    (Except.error ("could not get image: " ++ e), d5,
                      t1 ++ t2 ++ t3 ++ t4 ++ t5 ++ t6 ++ t7 ++ t8)
                  | (Except.ok img, d5, t8) =>
                    match getKey c d5 with
                    | (Except.error e, d6, t9) =>
                      (Except.error ("could not get ssh key: " ++ e), d6,
                        t1 ++ t2 ++ t3 ++ t4 ++ t5 ++ t6 ++ t7 ++ t8 ++ t9)
                    | (Except.ok key, d6, t9) =>
                      (Except.ok { srvopts1 with
                          networks := nets, firewalls := fws, volumes := vols,
                          location := some loc, serverTyp := some stype,
                          image := some img,
                          sshKeys := d6.cachedAdditionalKeys ++ [key] }, d6,
                        t1 ++ t2 ++ t3 ++ t4 ++ t5 ++ t6 ++ t7 ++ t8 ++ t9)

/-- Local-machine side effects of a `Create`/`Remove` run, as an oracle:
the outcome of the local key preparation (file copy or key generation),
of reading the generated public key, of `os.ReadFile` for user data, of
computing a public key's fingerprint (`ssh.ParseAuthorizedKey` +
`ssh.FingerprintLegacyMD5`), and the time-indexed views the polling loops
see (`actPolls` for `Action.GetByID`, `statePolls` and `netPolls` for
`Server.GetByID`). -/
structure CreateEnv where
  prepareLocalKeyRes : Except String Unit
  readPubKeyRes : Except String String
  fingerprintOf : String → Except String String
  readFileRes : String → Except String String
  actPolls : Nat → Except String (Option HAction)
  statePolls : Nat → Int → Except String (Option HServer)
  netPolls : Nat → Int → Except String HServer

/-- `getRemoteKeyWithSameFingerprintNullable` (called from ssh_keys.go;
its own body is the fingerprint-lookup of hetzner_query.go lines 113-132
without the not-found error): parse and fingerprint the public key
locally, then look it up remotely; a missing key is `none`, not an
error. -/
def getRemoteKeyWithSameFingerprintNullable (env : CreateEnv) (c : Client)
    (pubkey : String) : Except String (Option HSSHKey) × List Ev :=
  match env.fingerprintOf pubkey with
  | Except.error e => (Except.error ("could not parse ssh public key: " ++ e), [])
  | Except.ok fp =>
    match c.sshKeyGetByFingerprint fp with
    | Except.error e =>
      (Except.error ("could not get sshkey by fingerprint: " ++ e),
        [Ev.rem (RemoteOp.keyGetByFingerprint fp)])
    | Except.ok k => (Except.ok k, [Ev.rem (RemoteOp.keyGetByFingerprint fp)])

/-- `makeKey` (ssh_keys.go lines 130-152): upload a key and append a
compensating delete closure to the dangling list. -/
def makeKey (c : Client) (d : Driver) (name : String) (pubkey : String)
    (labels : List (String × String)) : Except String HSSHKey × Driver × List Ev :=
  match c.sshKeyCreate name pubkey labels with
  | Except.error e =>
    (Except.error ("could not create ssh key: " ++ e), d, [Ev.rem (RemoteOp.keyCreate name)])
  | Except.ok none =>
    (Except.error "key upload did not return an error, but key was nil", d,
      [Ev.rem (RemoteOp.keyCreate name)])
  | Except.ok (some k) =>
    (Except.ok k, { d with dangling := d.dangling ++ [Dangling.deleteKey k] },
      [Ev.rem (RemoteOp.keyCreate name), Ev.reg (Dangling.deleteKey k)])

/-- The `for i, pubkey := range d.AdditionalKeys` loop of
`createRemoteKeys` (ssh_keys.go lines 90-111), carrying the index. -/
def createAdditionalKeys (env : CreateEnv) (c : Client) (d : Driver) :
    Nat → List String → Except String Unit × Driver × List Ev
  | _, [] => (Except.ok (), d, [])
  | i, pubkey :: rest =>
    match getRemoteKeyWithSameFingerprintNullable env c pubkey with
    | (Except.error e, t) =>
      (Except.error ("error checking for existing key for " ++ pubkey ++ ": " ++ e), d, t)
    | (Except.ok none, t) =>
      match makeKey c d (d.machineName ++ "-additional-" ++ toString i) pubkey d.keyLabels with
      | (Except.error e, d1, t2) =>
        (Except.error ("error creating new key for " ++ pubkey ++ ": " ++ e), d1, t ++ t2)
      | (Except.ok k, d1, t2) =>
        match createAdditionalKeys env c
            { d1 with
              additionalKeyIDs := d1.additionalKeyIDs ++ [k.id],
              cachedAdditionalKeys := d1.cachedAdditionalKeys ++ [k] } (i + 1) rest with
        | (r, d3, t3) => (r, d3, t ++ t2 ++ t3)
    | (Except.ok (some k), t) =>
      match createAdditionalKeys env c
          { d with cachedAdditionalKeys := d.cachedAdditionalKeys ++ [k] } (i + 1) rest with
      | (r, d3, t3) => (r, d3, t ++ t3)

/-- The primary-key half of `createRemoteKeys` (ssh_keys.go lines 65-89):
when no key ID was pre-supplied, reuse a remote key with the same
fingerprint (marking it existing) or upload a fresh one. -/
def createPrimaryKey (env : CreateEnv) (c : Client) (d : Driver) :
    Except String Unit × Driver × List Ev :=
  if d.keyID = 0 then
    match env.readPubKeyRes with
    | Except.error e => (Except.error ("could not read ssh public key: " ++ e), d, [])
    | Except.ok buf =>
      match getRemoteKeyWithSameFingerprintNullable env c buf with
      | (Except.error e, t) =>
        (Except.error ("error retrieving potentially existing key: " ++ e), d, t)
      | (Except.ok none, t) =>
        match makeKey c d d.machineName buf d.keyLabels with
        | (Except.error e, d1, t2) => (Except.error e, d1, t ++ t2)
        | (Except.ok k, d1, t2) => (Except.ok (), { d1 with keyID := k.id }, t ++ t2)
      | (Except.ok (some k), t) =>
        (Except.ok (), { d with isExistingKey := true, keyID := k.id }, t)
  else (Except.ok (), d, [])

/-- `createRemoteKeys` (ssh_keys.go lines 64-113): reuse-or-upload the
primary key by fingerprint when no key ID was pre-supplied, then
reuse-or-upload each additional key. -/
def createRemoteKeys (env : CreateEnv) (c : Client) (d : Driver) :
    Except String Unit × Driver × List Ev :=
  match createPrimaryKey env c d with
  | (Except.error e, d1, t1) => (Except.error e, d1, t1)
  | (Except.ok (), d1, t1) =>
    match createAdditionalKeys env c d1 0 d1.additionalKeys with
    | (r, d2, t2) => (r, d2, t1 ++ t2)

/-- `waitForAction` (hetzner_query.go lines 163-187): poll the action by
ID until it reports success (ok), error (the action's error payload) or
the lookup fails; the fuel argument bounds the number of polls modelled
(`none` = the loop is still running after that many polls). -/
def waitForAction (polls : Nat → Except String (Option HAction)) (d : Driver)
    (a : HAction) : Nat → Nat → Option (Except String Unit) × List Ev
  | _, 0 => (none, [])
  | i, fuel + 1 =>
    match polls i with
    | Except.error e =>
      (some (Except.error ("could not get client by ID: " ++ e)),
        [Ev.rem (RemoteOp.actionGetByID a.id)])
    | Except.ok none =>
      (some (Except.error ("action not found: " ++ toString a.id)),
        [Ev.rem (RemoteOp.actionGetByID a.id)])
    | Except.ok (some act) =>
      if act.status = "success" then
        (some (Except.ok ()), [Ev.rem (RemoteOp.actionGetByID a.id)])
      else if act.status = "error" then
        (some (Except.error act.errMessage), [Ev.rem (RemoteOp.actionGetByID a.id)])
      else
        match waitForAction polls d a (i + 1) fuel with
        | (r, t) =>
          (r, Ev.rem (RemoteOp.actionGetByID a.id) :: Ev.slept d.waitOnPolling :: t)

/-- The part_005-era `waitForRunningServer` (driver.go lines 583-597):
poll `GetState` until the server reports running, sleeping one second
between polls, with no timeout.  `views i` is the remote view the i-th
poll sees. -/
def waitForRunningServerLegacy (views : Nat → Int → Except String (Option HServer))
    (d : Driver) : Nat → Nat → Option (Except String Unit) × List Ev
  | _, 0 => (none, [])
  | i, fuel + 1 =>
    match GetState (views i) d with
    | (_, some e) => (some (Except.error ("could not get state: " ++ e)), [])
    | (st, none) =>
      if st = MachineState.running then (some (Except.ok ()), [])
      else
        match waitForRunningServerLegacy views d (i + 1) fuel with
        | (r, t) => (r, Ev.slept 1 :: t)

/-- `waitForRunningServer` (placement_groups.go lines 98-118): poll
`GetState` until running; between polls sleep the configured polling
interval; when the configured timeout is positive and the elapsed seconds
(`elapsed i` models `int(time.Since(start_time).Seconds())` at the i-th
poll) exceed it, abort with the timeout error. -/
def waitForRunningServer (views : Nat → Int → Except String (Option HServer))
    (elapsed : Nat → Int) (d : Driver) :
    Nat → Nat → Option (Except String Unit) × List Ev
  | _, 0 => (none, [])
  | i, fuel + 1 =>
    match GetState (views i) d with
    | (_, some e) => (some (Except.error ("could not get state: " ++ e)), [])
    | (st, none) =>
      if st = MachineState.running then (some (Except.ok ()), [])
      else if d.waitForRunningTimeout > 0 ∧ elapsed i > d.waitForRunningTimeout then
        (some (Except.error "server exceeded wait-for-running-timeout"), [])
      else
        match waitForRunningServer views elapsed d (i + 1) fuel with
        | (r, t) => (r, Ev.slept d.waitOnPolling :: t)

/-- The private-network polling loop of `configureNetworkAccess`
(placement_groups.go lines 256-270): fetch the fresh server record until a
private network is attached, then record its first address. -/
def waitForPrivateNet (env : CreateEnv) (d : Driver) (srvID : Int) :
    Nat → Nat → Option (Except String Unit × Driver) × List Ev
  | _, 0 => (none, [])
  | i, fuel + 1 =>
    match env.netPolls i srvID with
    | Except.error e =>
      (some (Except.error ("could not get newly created server [" ++ toString srvID
          ++ "]: " ++ e), d), [Ev.rem (RemoteOp.serverGetByID srvID)])
    | Except.ok server =>
      match server.privateNet with
      | ip :: _ =>
        (some (Except.ok (), { d with ipAddress := ip }),
          [Ev.rem (RemoteOp.serverGetByID srvID)])
      | [] =>
        match waitForPrivateNet env d srvID (i + 1) fuel with
        | (r, t) =>
          (r, Ev.rem (RemoteOp.serverGetByID srvID) :: Ev.slept d.waitOnPolling :: t)

/-- `configureNetworkAccess` (placement_groups.go lines 246-284): record
the machine address from the private network (awaited), the derived IPv6
host address, or the public IPv4 address. -/
def configureNetworkAccess (env : CreateEnv) (d : Driver) (srv : HServerCreateResult) :
    Nat → Option (Except String Unit × Driver) × List Ev :=
  fun fuel =>
    if d.usePrivateNetwork then waitForPrivateNet env d srv.server.id 0 fuel
    else if d.disablePublic4 then
      (some (Except.ok (), { d with ipAddress := srv.server.publicNet.ipv6host }), [])
    else
      (some (Except.ok (), { d with ipAddress := srv.server.publicNet.ipv4 }), [])

/-- The tail of `Create` from the successful creation response onward
(part_005 lines 477-499): await the creation action, only then store the
new server's identifier, wait for the server to run, configure network
access, and on full success clear the dangling list. -/
def createAwaitAndFinish (env : CreateEnv) (_c : Client) (d : Driver)
    (srv : HServerCreateResult) (fuel : Nat) :
    Option (Except String Unit × Driver × List Ev) :=
  match waitForAction env.actPolls d srv.action 0 fuel with
  | (none, _) => none
  | (some (Except.error e), tw) =>
    some (Except.error ("could not wait for action: " ++ e), d, tw)
  | (some (Except.ok ()), tw) =>
    match waitForRunningServerLegacy env.statePolls
        { d with serverID := srv.server.id } 0 fuel with
    | (none, _) => none
    | (some (Except.error e), tr) =>
      some (Except.error e, { d with serverID := srv.server.id }, tw ++ tr)
    | (some (Except.ok ()), tr) =>
      match configureNetworkAccess env { d with serverID := srv.server.id } srv fuel with
      | (none, _) => none
      | (some (Except.error e, d4), tn) =>
        some (Except.error e, d4, tw ++ tr ++ tn)
      | (some (Except.ok (), d4), tn) =>
        some (Except.ok (), { d4 with dangling := [] }, tw ++ tr ++ tn)

/-- The body of `Create` after the local key preparation succeeded
(part_005 lines 459-499), i.e. the region guarded by the deferred
`destroyDangling`: remote key registration, request assembly, server
creation (with the error-delay sleep on failure), then
`createAwaitAndFinish`. -/
def createAfterKeyPrep (env : CreateEnv) (c : Client) (d : Driver) (fuel : Nat) :
    Option (Except String Unit × Driver × List Ev) :=
  match createRemoteKeys env c d with
  | (Except.error e, d1, t1) => some (Except.error e, d1, t1)
  | (Except.ok (), d1, t1) =>
    match makeCreateServerOptions c env.readFileRes d1 with
    | (Except.error e, d2, t2) => some (Except.error e, d2, t1 ++ t2)
    | (Except.ok srvopts, d2, t2) =>
      match c.serverCreate srvopts with
      | Except.error e =>
        some (Except.error ("could not create server: " ++ e), d2,
          t1 ++ t2 ++ [Ev.rem (RemoteOp.serverCreateOp srvopts.name),
            Ev.slept d2.waitOnError])
      | Except.ok srv =>
        match createAwaitAndFinish env c d2 srv fuel with
        | none => none
        | some (r, d5, t5) =>
          some (r, d5, t1 ++ t2 ++ [Ev.rem (RemoteOp.serverCreateOp srvopts.name)] ++ t5)

/-- `destroyDangling` (cleanup.go lines 11-15): invoke every registered
closure, in list (= registration) order. -/
def destroyDangling (d : Driver) : List Ev :=
  d.dangling.map Ev.inv

/-- `Create` (part_005 lines 452-500): local key preparation (aborting
with no rollback when it fails), then the deferred `destroyDangling`
guards every further exit path; the deferred call also runs on success,
where it finds the list already cleared. -/
def Create (env : CreateEnv) (c : Client) (d : Driver) (fuel : Nat) :
    Option (Except String Unit × Driver × List Ev) :=
  match env.prepareLocalKeyRes with
  | Except.error e => some (Except.error e, d, [])
  | Except.ok () =>
    match createAfterKeyPrep env c d fuel with
    | none => none
    | some (r, d1, evs) => some (r, d1, evs ++ destroyDangling d1)

/-- `removeEmptyServerPlacementGroup` (cleanup.go lines 17-37): delete the
server's placement group only when it has at most one member and carries
the auto-created label. -/
def removeEmptyServerPlacementGroup (c : Client) (srv : HServer) :
    Except String Unit × List Ev :=
  match srv.placementGroup with
  | none => (Except.ok (), [])
  | some pg =>
    if pg.servers.length > 1 then (Except.ok (), [])
    else
      match pg.labels.lookup (labelName labelAutoCreated) with
      | some auto =>
        if auto = "true" then
          match c.pgrpDelete pg.id with
          | Except.error e =>
            (Except.error ("could not remove placement group: " ++ e),
              [Ev.rem (RemoteOp.pgrpDeleteOp pg.id)])
          | Except.ok () => (Except.ok (), [Ev.rem (RemoteOp.pgrpDeleteOp pg.id)])
        else (Except.ok (), [])
      | none => (Except.ok (), [])

/-- `destroyServer` (cleanup.go lines 39-69): nothing to do when no server
ID is recorded; a vanished server is treated as already removed; otherwise
delete, soft-clean the placement group (its failure only logged) and await
the deletion action. -/
def destroyServer (env : CreateEnv) (c : Client) (d : Driver) (fuel : Nat) :
    Option (Except String Unit × Driver × List Ev) :=
  if d.serverID = 0 then some (Except.ok (), d, [])
  else
    match getServerHandleNullable c d with
    | (Except.error e, d1, t1) =>
      some (Except.error ("could not get server handle: " ++ e), d1, t1)
    | (Except.ok none, d1, t1) => some (Except.ok (), d1, t1)
    | (Except.ok (some srv), d1, t1) =>
      match c.serverDeleteWithResult srv.id with
      | Except.error e =>
        some (Except.error ("could not delete server: " ++ e), d1,
          t1 ++ [Ev.rem (RemoteOp.serverDeleteOp srv.id)])
      | Except.ok act =>
        match removeEmptyServerPlacementGroup c srv with
        | (_, t2) =>
          match waitForAction env.actPolls d1 act 0 fuel with
          | (none, _) => none
          | (some (Except.error e), t3) =>
            some (Except.error ("could not wait for deletion: " ++ e), d1,
              t1 ++ [Ev.rem (RemoteOp.serverDeleteOp srv.id)] ++ t2 ++ t3)
          | (some (Except.ok ()), t3) =>
            some (Except.ok (), d1,
              t1 ++ [Ev.rem (RemoteOp.serverDeleteOp srv.id)] ++ t2 ++ t3)

/-- The additional-keys loop of `Remove` (part_005 lines 548-562): look
each recorded key up and attempt its deletion; both results are only
logged, so the loop affects neither the driver state nor the overall
outcome.  (The delete is attempted even when the lookup found no key; the
trace records the target the Go code would pass.) -/
def removeAdditionalKeys (c : Client) : List Int → List Ev
  | [] => []
  | id :: rest =>
    let target : Option Int :=
      match c.sshKeyGetByID id with
      | Except.ok (some k) => some k.id
      | _ => none
    Ev.rem (RemoteOp.keyGetByID id) :: Ev.rem (RemoteOp.keyDelete target)
      :: removeAdditionalKeys c rest

/-- `Remove` (part_005 lines 542-583): destroy the server (fatal on
failure), soft-delete every additional key, and finally — when the primary
key is driver-owned and recorded — delete it, a failure being fatal.  (The
source's nil-check on the fetched key is unreachable: `getKey` already
turns a missing key into an error.) -/
def Remove (env : CreateEnv) (c : Client) (d : Driver) (fuel : Nat) :
    Option (Except String Unit × Driver × List Ev) :=
  match destroyServer env c d fuel with
  | none => none
  | some (Except.error e, d1, t1) => some (Except.error e, d1, t1)
  | some (Except.ok (), d1, t1) =>
    let t2 := removeAdditionalKeys c d1.additionalKeyIDs
    if ¬ d1.isExistingKey ∧ d1.keyID ≠ 0 then
      match getKey c d1 with
      | (Except.error e, d2, t3) =>
        some (Except.error ("could not get ssh key: " ++ e), d2, t1 ++ t2 ++ t3)
      | (Except.ok key, d2, t3) =>
        match c.sshKeyDelete (some key.id) with
        | Except.error e =>
          some (Except.error ("could not delete ssh key: " ++ e), d2,
            t1 ++ t2 ++ t3 ++ [Ev.rem (RemoteOp.keyDelete (some key.id))])
        | Except.ok () =>
          some (Except.ok (), d2,
            t1 ++ t2 ++ t3 ++ [Ev.rem (RemoteOp.keyDelete (some key.id))])
    else some (Except.ok (), d1, t1 ++ t2)

/-- The condition under which the i-th iteration of `waitForRunningServer`
neither terminates nor times out: the state query succeeds, the server is
not yet running, and the timeout check does not trip. -/
def continuesAt (views : Nat → Int → Except String (Option HServer))
    (elapsed : Nat → Int) (d : Driver) (j : Nat) : Prop :=
  (GetState (views j) d).2 = none ∧
  (GetState (views j) d).1 ≠ MachineState.running ∧
  ¬ (d.waitForRunningTimeout > 0 ∧ elapsed j > d.waitForRunningTimeout)

instance (views : Nat → Int → Except String (Option HServer))
    (elapsed : Nat → Int) (d : Driver) (j : Nat) :
    Decidable (continuesAt views elapsed d j) := by
  unfold continuesAt; infer_instance

/-- A client oracle whose every call fails; concrete scenarios override
the fields they exercise. -/
def errClient : Client where
  locationGetByName := fun _ => Except.error "unreached"
  serverTypeGetByName := fun _ => Except.error "unreached"
  imageGetByID := fun _ => Except.error "unreached"
  imageGetByNameAndArchitecture := fun _ _ => Except.error "unreached"
  sshKeyGetByID := fun _ => Except.error "unreached"
  sshKeyGetByFingerprint := fun _ => Except.error "unreached"
  sshKeyCreate := fun _ _ _ => Except.error "unreached"
  sshKeyDelete := fun _ => Except.error "unreached"
  primaryIPGetByIP := fun _ => Except.error "unreached"
  primaryIPGet := fun _ => Except.error "unreached"
  pgrpAllWithSelector := fun _ => Except.error "unreached"
  pgrpGet := fun _ => Except.error "unreached"
  pgrpCreate := fun _ _ => (none, some "unreached")
  pgrpDelete := fun _ => Except.error "unreached"
  networkGet := fun _ => Except.error "unreached"
  firewallGet := fun _ => Except.error "unreached"
  volumeGet := fun _ => Except.error "unreached"
  serverGetByID := fun _ => Except.error "unreached"
  serverCreate := fun _ => Except.error "unreached"
  serverDeleteWithResult := fun _ => Except.error "unreached"
  parseIPSucceeds := fun _ => false

/-- An environment oracle whose every operation fails; concrete scenarios
override the fields they exercise. -/
def errEnv : CreateEnv where
  prepareLocalKeyRes := Except.error "unreached"
  readPubKeyRes := Except.error "unreached"
  fingerprintOf := fun _ => Except.error "unreached"
  readFileRes := fun _ => Except.error "unreached"
  actPolls := fun _ => Except.error "unreached"
  statePolls := fun _ _ => Except.error "unreached"
  netPolls := fun _ _ => Except.error "unreached"

/-- Concrete scenario refuting the original claim C2: the creation
request succeeds (server ID 42) but the action wait fails. -/
def cexServer : HServer where
  id := 42
  name := "m"
  status := "initializing"
  publicNet := { ipv4 := "1.2.3.4", ipv6host := "" }
  privateNet := []
  placementGroup := none

def cexCreateResult : HServerCreateResult where
  server := cexServer
  action := { id := 7, command := "create_server", status := "running",
              progress := 0, errMessage := "" }
  nextActions := []

def cexClient : Client :=
  { errClient with
    locationGetByName := fun _ => Except.ok (some { id := 1, name := "loc1" }),
    serverTypeGetByName := fun _ =>
      Except.ok (some { id := 2, name := "cx11", architecture := "x86" }),
    imageGetByID := fun _ => Except.ok (some { id := 9, name := "img" }),
    sshKeyGetByID := fun _ =>
      Except.ok (some { id := 5, name := "key", fingerprint := "fp" }),
    serverCreate := fun _ => Except.ok cexCreateResult }

def cexEnv : CreateEnv :=
  { errEnv with
    prepareLocalKeyRes := Except.ok (),
    actPolls := fun _ =>
      Except.ok (some { id := 7, command := "create_server", status := "error",
                        progress := 0, errMessage := "boom" }) }

def cexDriver : Driver :=
  { keyID := 5, imageID := 9, location := "loc1", serverTyp := "cx11",
    machineName := "m" }

/-- Concrete scenario refuting claim C3 for the named placement-group
path: the lookup succeeds but nothing is cached, so every repeat call
performs the remote lookup again. -/
def pgCexGroup : HPlacementGroup where
  id := 11
  name := "pg1"
  labels := []
  servers := []

def pgCexClient : Client :=
  { errClient with pgrpGet := fun _ => Except.ok (some pgCexGroup) }

def pgCexDriver : Driver := { placementGroup := "pg1" }

/-- The dangling-list bookkeeping contract of a provisioning step: it
invokes no rollback closure, and the closures on the resulting driver's
dangling list are the input list followed by exactly those the step's
events registered, in order. -/
def DanglingSound (d d' : Driver) (t : List Ev) : Prop :=
  invsOf t = [] ∧ d'.dangling = d.dangling ++ regsOf t

/-- Concrete scenario for the C1 witness: the primary key is freshly
uploaded (registering a rollback closure) and server creation then
fails, so the registered closure is invoked. -/
def wKey : HSSHKey where
  id := 77
  name := "m"
  fingerprint := "fp77"

def wClient : Client :=
  { errClient with
    sshKeyGetByFingerprint := fun _ => Except.ok none,
    sshKeyCreate := fun _ _ _ => Except.ok (some wKey),
    sshKeyGetByID := fun _ => Except.ok (some wKey),
    locationGetByName := fun _ => Except.ok (some { id := 1, name := "loc1" }),
    serverTypeGetByName := fun _ =>
      Except.ok (some { id := 2, name := "cx11", architecture := "x86" }),
    imageGetByID := fun _ => Except.ok (some { id := 9, name := "img" }),
    serverCreate := fun _ => Except.error "cap" }

def wDriver : Driver :=
  { imageID := 9, location := "loc1", serverTyp := "cx11", machineName := "m" }

def wEnv : CreateEnv :=
  { errEnv with
    prepareLocalKeyRes := Except.ok (),
    readPubKeyRes := Except.ok "pub",
    fingerprintOf := fun s => Except.ok ("fp-" ++ s) }

def wOut : Except String Unit × Driver × List Ev :=
  (Create wEnv wClient wDriver 3).getD (Except.ok (), {}, [])

/-- Concrete scenario for the amended-C2 witness: the action await
succeeds, after which the server ID is stored and the rest of the tail
runs to success. -/
def w2Env : CreateEnv :=
  { errEnv with
    actPolls := fun _ =>
      Except.ok (some { id := 7, command := "create_server", status := "success",
                        progress := 100, errMessage := "" }),
    statePolls := fun _ _ => Except.ok (some { cexServer with status := "running" }) }

def w2Out : Except String Unit × Driver × List Ev :=
  (createAwaitAndFinish w2Env errClient cexDriver cexCreateResult 3).getD
    (Except.ok (), {}, [])

/-! Helper lemmas about event traces. -/

@[simp] theorem regsOf_nil : regsOf [] = [] := rfl

@[simp] theorem regsOf_cons_rem (op : RemoteOp) (t : List Ev) :
    regsOf (Ev.rem op :: t) = regsOf t := rfl

@[simp] theorem regsOf_cons_slept (s : Int) (t : List Ev) :
    regsOf (Ev.slept s :: t) = regsOf t := rfl

@[simp] theorem regsOf_cons_reg (a : Dangling) (t : List Ev) :
    regsOf (Ev.reg a :: t) = a :: regsOf t := rfl

@[simp] theorem regsOf_cons_inv (a : Dangling) (t : List Ev) :
    regsOf (Ev.inv a :: t) = regsOf t := rfl

@[simp] theorem regsOf_append (s t : List Ev) :
    regsOf (s ++ t) = regsOf s ++ regsOf t :=
  List.filterMap_append s t _

@[simp] theorem invsOf_nil : invsOf [] = [] := rfl

@[simp] theorem invsOf_cons_rem (op : RemoteOp) (t : List Ev) :
    invsOf (Ev.rem op :: t) = invsOf t := rfl

@[simp] theorem invsOf_cons_slept (s : Int) (t : List Ev) :
    invsOf (Ev.slept s :: t) = invsOf t := rfl

@[simp] theorem invsOf_cons_reg (a : Dangling) (t : List Ev) :
    invsOf (Ev.reg a :: t) = invsOf t := rfl

@[simp] theorem invsOf_cons_inv (a : Dangling) (t : List Ev) :
    invsOf (Ev.inv a :: t) = a :: invsOf t := rfl

@[simp] theorem invsOf_append (s t : List Ev) :
    invsOf (s ++ t) = invsOf s ++ invsOf t :=
  List.filterMap_append s t _

@[simp] theorem invsOf_map_inv (l : List Dangling) :
    invsOf (l.map Ev.inv) = l := by
  induction l with
  | nil => rfl
  | cons a l ih => simp [ih]

@[simp] theorem regsOf_map_inv (l : List Dangling) :
    regsOf (l.map Ev.inv) = [] := by
  induction l with
  | nil => rfl
  | cons a l ih => simp [ih]

/-- C5: for a `GetState` call whose remote lookup succeeds with a server
record, status initializing maps to Starting, running to Running, off to
Stopped, and any other status yields the unknown/none state with no
error; a successful lookup with no server yields the distinct
"server not found" error instead. -/
theorem getState_spec (look : Int → Except String (Option HServer))
    (d : Driver) (srv : HServer) :
    (look d.serverID = Except.ok (some srv) → srv.status = "initializing" →
      GetState look d = (MachineState.starting, none))
  ∧ (look d.serverID = Except.ok (some srv) → srv.status = "running" →
      GetState look d = (MachineState.running, none))
  ∧ (look d.serverID = Except.ok (some srv) → srv.status = "off" →
      GetState look d = (MachineState.stopped, none))
  ∧ (look d.serverID = Except.ok (some srv) → srv.status ≠ "initializing" →
      srv.status ≠ "running" → srv.status ≠ "off" →
      GetState look d = (MachineState.unknown, none))
  ∧ (look d.serverID = Except.ok none →
      GetState look d = (MachineState.unknown, some "server not found")) := by
  refine ⟨?_, ?_, ?_, ?_, ?_⟩ <;> intro h
  · intro hs; simp [GetState, h, hs]
  · intro hs; simp [GetState, h, hs]
  · intro hs; simp [GetState, h, hs]
  · intro h1 h2 h3; simp [GetState, h, h1, h2, h3]
  · simp [GetState, h]

/-- Witness for C5 at concrete inputs: one server in each status family
and the no-server case. -/
theorem getState_spec_witness :
    GetState (fun _ => Except.ok (some { cexServer with status := "off" }))
      cexDriver = (MachineState.stopped, none)
  ∧ GetState (fun _ => Except.ok (some { cexServer with status := "migrating" }))
      cexDriver = (MachineState.unknown, none)
  ∧ GetState (fun _ => Except.ok none) cexDriver
      = (MachineState.unknown, some "server not found") :=
  ⟨(getState_spec _ cexDriver { cexServer with status := "off" }).2.2.1 rfl rfl,
   (getState_spec _ cexDriver
      { cexServer with status := "migrating" }).2.2.2.1 rfl
      (by decide) (by decide) (by decide),
   (getState_spec (fun _ => Except.ok none) cexDriver cexServer).2.2.2.2 rfl⟩

/-- C8: image-flag validation fails naming the image and image-id flags
exactly when a non-zero image ID is supplied together with a non-empty
image name that is not a recognized legacy default; an ID together with a
legacy default name (and no architecture flag) is accepted unchanged; and
when neither selector is given the name is set to the hardcoded
default. -/
theorem verifyImageFlags_spec (d : Driver) :
    (verifyImageFlags d
        = Except.error (FlagError.mutuallyExclusive flagImage flagImageID)
      ↔ d.imageID ≠ 0 ∧ d.image ≠ "" ∧ ¬ isDefaultImageName d.image)
  ∧ (d.imageID ≠ 0 → isDefaultImageName d.image → d.imageArch = "" →
      verifyImageFlags d = Except.ok d)
  ∧ (d.imageID = 0 → d.image = "" →
      verifyImageFlags d = Except.ok { d with image := defaultImage }) := by
  refine ⟨⟨?_, ?_⟩, ?_, ?_⟩
  · intro h
    unfold verifyImageFlags at h
    split at h
    · assumption
    · split at h
      · exfalso
        have : flagImageArch = flagImage := by
          have := (Except.error.injEq _ _).mp h
          exact (FlagError.mutuallyExclusive.injEq _ _ _ _).mp this |>.1
        simp [flagImageArch, flagImage] at this
      · split at h <;> simp at h
  · intro ⟨h1, h2, h3⟩
    unfold verifyImageFlags
    simp [h1, h2, h3]
  · intro h1 h2 h3
    unfold verifyImageFlags
    simp [h1, h2, h3]
  · intro h1 h2
    unfold verifyImageFlags
    simp [h1, h2, isDefaultImageName]

/-- Witness for C8 at concrete drivers: the rejected combination, the
tolerated legacy combination, and the default fallback. -/
theorem verifyImageFlags_spec_witness :
    verifyImageFlags { ({} : Driver) with imageID := 3, image := "fedora-38" }
      = Except.error (FlagError.mutuallyExclusive flagImage flagImageID)
  ∧ verifyImageFlags { ({} : Driver) with imageID := 3, image := "ubuntu-16.04" }
      = Except.ok { ({} : Driver) with imageID := 3, image := "ubuntu-16.04" }
  ∧ verifyImageFlags ({} : Driver)
      = Except.ok { ({} : Driver) with image := defaultImage } :=
  ⟨(verifyImageFlags_spec _).1.mpr (by decide),
   (verifyImageFlags_spec _).2.1 (by decide) (by decide) rfl,
   (verifyImageFlags_spec _).2.2 rfl rfl⟩

/-- C7: with the deprecated treat-inline-value-as-filename flag set and no
user-data-file flag, configuration of the user-data flags succeeds, the
inline value is redirected into the file-path field (so the effective
user data is the contents of the file at that path) and the
deprecated-flags marker is set; with both flags set, validation fails
naming them as mutually exclusive. -/
theorem setUserDataFlags_spec (opts : DriverOpts) (d : Driver) :
    (opts.bools legacyFlagUserDataFromFile = true →
      opts.strings flagUserDataFile = "" →
      setUserDataFlags opts d
        = Except.ok { d with usesDfr := true,
                             userDataFile := opts.strings flagUserData }
      ∧ ∀ (fs : String → Except String String) (contents : String),
          opts.strings flagUserData ≠ "" →
          fs (opts.strings flagUserData) = Except.ok contents →
          getUserData fs
              { d with usesDfr := true,
                       userDataFile := opts.strings flagUserData }
            = Except.ok contents)
  ∧ (opts.bools legacyFlagUserDataFromFile = true →
      opts.strings flagUserDataFile ≠ "" →
      setUserDataFlags opts d
        = Except.error
            (FlagError.mutuallyExclusive flagUserDataFile
              legacyFlagUserDataFromFile)) := by
  constructor
  · intro hleg hfile
    constructor
    · unfold setUserDataFlags
      simp [hleg, hfile]
    · intro fs contents hne hread
      unfold getUserData
      simp [hne, hread]
  · intro hleg hfile
    unfold setUserDataFlags
    simp [hleg, hfile]

/-- Witness for C7: a concrete option set exercising both the redirect
(with the effective user data read from the file) and the conflict. -/
theorem setUserDataFlags_spec_witness :
    setUserDataFlags
        { strings := fun f => if f = flagUserData then "/p" else "",
          bools := fun f => f = legacyFlagUserDataFromFile,
          stringSlices := fun _ => [] } ({} : Driver)
      = Except.ok { ({} : Driver) with usesDfr := true, userDataFile := "/p" }
  ∧ getUserData (fun _ => Except.ok "file-contents")
      { ({} : Driver) with usesDfr := true, userDataFile := "/p" }
      = Except.ok "file-contents"
  ∧ setUserDataFlags
        { strings := fun f => if f = flagUserDataFile then "/q" else "",
          bools := fun f => f = legacyFlagUserDataFromFile,
          stringSlices := fun _ => [] } ({} : Driver)
      = Except.error
          (FlagError.mutuallyExclusive flagUserDataFile
            legacyFlagUserDataFromFile) := by
  have h1 := (setUserDataFlags_spec
    { strings := fun f => if f = flagUserData then "/p" else "",
      bools := fun f => f = legacyFlagUserDataFromFile,
      stringSlices := fun _ => [] } ({} : Driver)).1 (by decide) (by decide)
  have h2 := (setUserDataFlags_spec
    { strings := fun f => if f = flagUserDataFile then "/q" else "",
      bools := fun f => f = legacyFlagUserDataFromFile,
      stringSlices := fun _ => [] } ({} : Driver)).2 (by decide) (by decide)
  refine ⟨?_, ?_, h2⟩
  · have := h1.1
    simpa using this
  · have := h1.2 (fun _ => Except.ok "file-contents") "file-contents"
      (by decide) rfl
    simpa using this

theorem splitFirstAt_none_iff (sep : Char) (l : List Char) :
    splitFirstAt sep l = none ↔ sep ∉ l := by
  induction l with
  | nil => simp [splitFirstAt]
  | cons c cs ih =>
    simp only [splitFirstAt]
    by_cases h : c = sep
    · simp [h]
    · cases hs : splitFirstAt sep cs with
      | none =>
        have hmem := ih.mp hs
        simp [h, List.mem_cons]
        exact ⟨fun he => absurd he.symm h, hmem⟩
      | some p =>
        have hmem : sep ∈ cs := by
          by_contra hn
          exact absurd (ih.mpr hn) (by simp [hs])
        simp [h, List.mem_cons, hmem]

theorem splitFirstAt_of_not_mem (sep : Char) :
    ∀ (k v : List Char), sep ∉ k → splitFirstAt sep (k ++ sep :: v) = some (k, v) := by
  intro k
  induction k with
  | nil => intro v _; simp [splitFirstAt]
  | cons c cs ih =>
    intro v h
    have hc : ¬ c = sep := fun he => h (by simp [he])
    have hcs : sep ∉ cs := fun hm => h (by simp [hm])
    simp only [List.cons_append, splitFirstAt, hc, if_false, List.append_eq, ih v hcs]

theorem splitLabel_eq_none_iff (l : String) :
    splitLabel l = none ↔ '=' ∉ l.toList := by
  unfold splitLabel
  cases h : splitFirstAt '=' l.toList with
  | none =>
    have := (splitFirstAt_none_iff '=' l.toList).mp h
    simp only [this]
    simp
  | some p =>
    have hmem : '=' ∈ l.toList := by
      by_contra hn
      have h0 := (splitFirstAt_none_iff '=' l.toList).mpr hn
      rw [h] at h0
      exact Option.noConfusion h0
    simp only [hmem]
    simp

theorem splitLabel_splits (k v : String) (h : '=' ∉ k.toList) :
    splitLabel (k ++ "=" ++ v) = some (k, v) := by
  unfold splitLabel
  have hdata : (k ++ "=" ++ v).toList = k.toList ++ '=' :: v.toList := by
    show (k ++ "=" ++ v).data = k.data ++ '=' :: v.data
    rw [String.data_append, String.data_append]
    show k.data ++ ['='] ++ v.data = _
    simp
  rw [hdata, splitFirstAt_of_not_mem '=' k.toList v.toList h]
  rfl

theorem putServerLabels_isOk (ls : List String) :
    ∀ m, (∃ r, putServerLabels m ls = Except.ok r) ↔
      ∀ l ∈ ls, '=' ∈ l.toList := by
  induction ls with
  | nil => intro m; simp [putServerLabels]
  | cons l rest ih =>
    intro m
    simp only [putServerLabels]
    cases hl : splitLabel l with
    | none =>
      have hno := (splitLabel_eq_none_iff l).mp hl
      simp only [hl]
      constructor
      · intro hex
        obtain ⟨r, hr⟩ := hex
        simp at hr
      · intro hall
        exact absurd (hall l (by simp)) hno
    | some p =>
      have hmem : '=' ∈ l.toList := by
        by_contra hn
        exact absurd ((splitLabel_eq_none_iff l).mpr hn) (by simp [hl])
      simp only [hl]
      rw [ih (mapPut m p.1 p.2)]
      constructor
      · intro hall
        intro x hx
        rcases List.mem_cons.mp hx with hx | hx
        · exact hx ▸ hmem
        · exact hall x hx
      · intro hall x hx
        exact hall x (by simp [hx])

theorem putKeyLabels_isOk (ls : List String) :
    ∀ m, (∃ r, putKeyLabels m ls = Except.ok r) ↔
      ∀ l ∈ ls, '=' ∈ l.toList := by
  induction ls with
  | nil => intro m; simp [putKeyLabels]
  | cons l rest ih =>
    intro m
    simp only [putKeyLabels]
    cases hl : splitLabel l with
    | none =>
      have hno := (splitLabel_eq_none_iff l).mp hl
      simp only [hl]
      constructor
      · intro hex
        obtain ⟨r, hr⟩ := hex
        simp at hr
      · intro hall
        exact absurd (hall l (by simp)) hno
    | some p =>
      have hmem : '=' ∈ l.toList := by
        by_contra hn
        exact absurd ((splitLabel_eq_none_iff l).mpr hn) (by simp [hl])
      simp only [hl]
      rw [ih (mapPut m p.1 p.2)]
      constructor
      · intro hall
        intro x hx
        rcases List.mem_cons.mp hx with hx | hx
        · exact hx ▸ hmem
        · exact hall x hx
      · intro hall x hx
        exact hall x (by simp [hx])

/-- C10: a label argument without an equals sign makes label validation
fail, while an argument with one or more equals signs is accepted and
split at the first one only, everything after it (further equals signs
included) becoming the stored value. -/
theorem setLabelsFromFlags_spec (opts : DriverOpts) (d : Driver) :
    ((∃ d1, setLabelsFromFlags opts d = Except.ok d1) ↔
      (∀ l ∈ opts.stringSlices flagServerLabel, '=' ∈ l.toList) ∧
      (∀ l ∈ opts.stringSlices flagKeyLabel, '=' ∈ l.toList))
  ∧ (∀ k v : String, '=' ∉ k.toList → splitLabel (k ++ "=" ++ v) = some (k, v))
  ∧ (∀ k v : String, '=' ∉ k.toList →
      opts.stringSlices flagServerLabel = [k ++ "=" ++ v] →
      opts.stringSlices flagKeyLabel = [] →
      setLabelsFromFlags opts d
        = Except.ok { d with serverLabels := [(k, v)], keyLabels := [] }) := by
  refine ⟨?_, fun k v h => splitLabel_splits k v h, ?_⟩
  · unfold setLabelsFromFlags
    cases hs : putServerLabels [] (opts.stringSlices flagServerLabel) with
    | error e =>
      have hbad : ¬ ∀ l ∈ opts.stringSlices flagServerLabel, '=' ∈ l.toList := by
        intro hall
        obtain ⟨r, hr⟩ := (putServerLabels_isOk _ []).mpr hall
        simp [hs] at hr
      constructor
      · intro hex
        obtain ⟨r, hr⟩ := hex
        simp at hr
      · intro hall
        exact absurd hall.1 hbad
    | ok srvL =>
      have hsrv : ∀ l ∈ opts.stringSlices flagServerLabel, '=' ∈ l.toList :=
        (putServerLabels_isOk _ []).mp ⟨srvL, hs⟩
      cases hk : putKeyLabels [] (opts.stringSlices flagKeyLabel) with
      | error e =>
        have hbad : ¬ ∀ l ∈ opts.stringSlices flagKeyLabel, '=' ∈ l.toList := by
          intro hall
          obtain ⟨r, hr⟩ := (putKeyLabels_isOk _ []).mpr hall
          simp [hk] at hr
        constructor
        · intro hex
          obtain ⟨r, hr⟩ := hex
          simp at hr
        · intro hall
          exact absurd hall.2 hbad
      | ok kL =>
        constructor
        · intro _
          exact ⟨hsrv, (putKeyLabels_isOk _ []).mp ⟨kL, hk⟩⟩
        · intro _
          exact ⟨_, rfl⟩
  · intro k v h hsrv hkey
    unfold setLabelsFromFlags
    rw [hsrv, hkey]
    simp only [putServerLabels, putKeyLabels, splitLabel_splits k v h]
    simp [putServerLabels, mapPut]

/-- Witness for C10: the argument list with the separator twice is split
at the first occurrence; a separator-free argument is rejected. -/
theorem setLabelsFromFlags_spec_witness :
    setLabelsFromFlags
        { strings := fun _ => "", bools := fun _ => false,
          stringSlices := fun f => if f = flagServerLabel then ["a=b=c"] else [] }
        ({} : Driver)
      = Except.ok { ({} : Driver) with serverLabels := [("a", "b=c")], keyLabels := [] }
  ∧ ¬ ∃ d1, setLabelsFromFlags
        { strings := fun _ => "", bools := fun _ => false,
          stringSlices := fun f => if f = flagServerLabel then ["nokv"] else [] }
        ({} : Driver) = Except.ok d1 := by
  constructor
  · have := (setLabelsFromFlags_spec
      { strings := fun _ => "", bools := fun _ => false,
        stringSlices := fun f => if f = flagServerLabel then ["a=b=c"] else [] }
      ({} : Driver)).2.2 "a" "b=c" (by decide) (by simp) (by simp [flagKeyLabel, flagServerLabel])
    simpa using this
  · intro hex
    have := ((setLabelsFromFlags_spec
      { strings := fun _ => "", bools := fun _ => false,
        stringSlices := fun f => if f = flagServerLabel then ["nokv"] else [] }
      ({} : Driver)).1).mp hex
    have hbad := this.1 "nokv" (by simp)
    simp at hbad

/-- C9: `makePlacementGroup` appends a compensating delete closure to the
dangling list whenever the create response carries a group object — even
when the call also returned an error, which is then still returned
(wrapped) to the caller; when the call errors with no group object,
nothing is registered. -/
theorem makePlacementGroup_spec (c : Client) (d : Driver) (name : String)
    (labels : List (String × String)) :
    (∀ g, (c.pgrpCreate name labels).1 = some g →
      ((makePlacementGroup c d name labels).2.1.dangling
          = d.dangling ++ [Dangling.deletePGrp g]
        ∧ regsOf (makePlacementGroup c d name labels).2.2 = [Dangling.deletePGrp g]
        ∧ ∀ e, (c.pgrpCreate name labels).2 = some e →
            (makePlacementGroup c d name labels).1
              = Except.error ("could not create placement group: " ++ e)))
  ∧ ((c.pgrpCreate name labels).1 = none →
      ((makePlacementGroup c d name labels).2.1 = d
        ∧ regsOf (makePlacementGroup c d name labels).2.2 = []
        ∧ ∀ e, (c.pgrpCreate name labels).2 = some e →
            (makePlacementGroup c d name labels).1
              = Except.error ("could not create placement group: " ++ e))) := by
  constructor
  · intro g hg
    simp only [makePlacementGroup]
    rw [hg]
    cases h2 : (c.pgrpCreate name labels).2 with
    | none =>
      refine ⟨by simp, by simp, ?_⟩
      intro e he
      exact Option.noConfusion he
    | some e0 =>
      refine ⟨by simp, by simp, ?_⟩
      intro e he
      injection he with he
      subst he
      rfl
  · intro hg
    simp only [makePlacementGroup]
    rw [hg]
    cases h2 : (c.pgrpCreate name labels).2 with
    | none =>
      refine ⟨by simp, by simp, ?_⟩
      intro e he
      exact Option.noConfusion he
    | some e0 =>
      refine ⟨by simp, by simp, ?_⟩
      intro e he
      injection he with he
      subst he
      rfl

/-- Witness for C9: a create call that returns both a group object and an
error registers the rollback closure and still surfaces the error. -/
theorem makePlacementGroup_spec_witness :
    ((makePlacementGroup
        { errClient with pgrpCreate := fun _ _ => (some pgCexGroup, some "boom") }
        ({} : Driver) "pg1" []).2.1.dangling = [Dangling.deletePGrp pgCexGroup]
      ∧ (makePlacementGroup
          { errClient with pgrpCreate := fun _ _ => (some pgCexGroup, some "boom") }
          ({} : Driver) "pg1" []).1
        = Except.error ("could not create placement group: " ++ "boom"))
  ∧ (makePlacementGroup
      { errClient with pgrpCreate := fun _ _ => (none, some "down") }
      ({} : Driver) "pg2" []).2.1 = ({} : Driver) := by
  have h1 := (makePlacementGroup_spec
    { errClient with pgrpCreate := fun _ _ => (some pgCexGroup, some "boom") }
    ({} : Driver) "pg1" []).1 pgCexGroup rfl
  have h2 := (makePlacementGroup_spec
    { errClient with pgrpCreate := fun _ _ => (none, some "down") }
    ({} : Driver) "pg2" []).2 rfl
  exact ⟨⟨by simpa using h1.1, h1.2.2 "boom" rfl⟩, h2.1⟩

theorem wrapped_getState_ne_timeout (e : String) :
    ¬ ("could not get state: " ++ e = "server exceeded wait-for-running-timeout") := by
  intro h
  have h1 : ("could not get state: " ++ e).data.head? = some 'c' := by
    rw [String.data_append]
    rfl
  rw [h] at h1
  exact absurd h1 (by decide)

theorem waitRun_reaches (views : Nat → Int → Except String (Option HServer))
    (elapsed : Nat → Int) (d : Driver) :
    ∀ (k i fuel : Nat), k < fuel →
    (∀ j, j < k → continuesAt views elapsed d (i + j)) →
    (GetState (views (i + k)) d).2 = none →
    (GetState (views (i + k)) d).1 = MachineState.running →
    (waitForRunningServer views elapsed d i fuel).1 = some (Except.ok ()) := by
  intro k
  induction k with
  | zero =>
    intro i fuel hf _ h2 h1
    cases fuel with
    | zero => omega
    | succ f =>
      simp only [Nat.add_zero] at h1 h2
      rcases hGS : GetState (views i) d with ⟨st, err⟩
      rw [hGS] at h1 h2
      simp only at h1 h2
      subst h1
      subst h2
      simp [waitForRunningServer, hGS]
  | succ k ih =>
    intro i fuel hf hcont h2 h1
    cases fuel with
    | zero => omega
    | succ f =>
      have hc0 := hcont 0 (Nat.succ_pos k)
      simp only [Nat.add_zero] at hc0
      obtain ⟨hce, hcr, hct⟩ := hc0
      rcases hGS : GetState (views i) d with ⟨st, err⟩
      rw [hGS] at hce hcr
      simp only at hce hcr
      subst hce
      have hrec : (waitForRunningServer views elapsed d (i + 1) f).1
          = some (Except.ok ()) := by
        apply ih (i + 1) f (by omega)
        · intro j hj
          have hx := hcont (j + 1) (by omega)
          rwa [show i + (j + 1) = i + 1 + j by omega] at hx
        · rwa [show i + (k + 1) = i + 1 + k by omega] at h2
        · rwa [show i + (k + 1) = i + 1 + k by omega] at h1
      simp [waitForRunningServer, hGS, hcr, hct, hrec]

theorem waitRun_timesOut (views : Nat → Int → Except String (Option HServer))
    (elapsed : Nat → Int) (d : Driver) :
    ∀ (k i fuel : Nat), k < fuel →
    (∀ j, j < k → continuesAt views elapsed d (i + j)) →
    (GetState (views (i + k)) d).2 = none →
    (GetState (views (i + k)) d).1 ≠ MachineState.running →
    d.waitForRunningTimeout > 0 → elapsed (i + k) > d.waitForRunningTimeout →
    (waitForRunningServer views elapsed d i fuel).1
      = some (Except.error "server exceeded wait-for-running-timeout") := by
  intro k
  induction k with
  | zero =>
    intro i fuel hf _ h2 h1 hpos hel
    cases fuel with
    | zero => omega
    | succ f =>
      simp only [Nat.add_zero] at h1 h2 hel
      rcases hGS : GetState (views i) d with ⟨st, err⟩
      rw [hGS] at h1 h2
      simp only at h1 h2
      subst h2
      simp [waitForRunningServer, hGS, h1, hpos, hel]
  | succ k ih =>
    intro i fuel hf hcont h2 h1 hpos hel
    cases fuel with
    | zero => omega
    | succ f =>
      have hc0 := hcont 0 (Nat.succ_pos k)
      simp only [Nat.add_zero] at hc0
      obtain ⟨hce, hcr, hct⟩ := hc0
      rcases hGS : GetState (views i) d with ⟨st, err⟩
      rw [hGS] at hce hcr
      simp only at hce hcr
      subst hce
      have hrec : (waitForRunningServer views elapsed d (i + 1) f).1
          = some (Except.error "server exceeded wait-for-running-timeout") := by
        apply ih (i + 1) f (by omega)
        · intro j hj
          have hx := hcont (j + 1) (by omega)
          rwa [show i + (j + 1) = i + 1 + j by omega] at hx
        · rwa [show i + (k + 1) = i + 1 + k by omega] at h2
        · rwa [show i + (k + 1) = i + 1 + k by omega] at h1
        · exact hpos
        · rwa [show i + (k + 1) = i + 1 + k by omega] at hel
      simp [waitForRunningServer, hGS, hcr, hct, hrec]

theorem waitRun_no_timeout_error (views : Nat → Int → Except String (Option HServer))
    (elapsed : Nat → Int) (d : Driver) (h0 : d.waitForRunningTimeout = 0) :
    ∀ (fuel i : Nat), (waitForRunningServer views elapsed d i fuel).1
      ≠ some (Except.error "server exceeded wait-for-running-timeout") := by
  intro fuel
  induction fuel with
  | zero => intro i; simp [waitForRunningServer]
  | succ f ih =>
    intro i
    rcases hGS : GetState (views i) d with ⟨st, err⟩
    cases err with
    | some e =>
      simp [waitForRunningServer, hGS]
      intro hcontra
      exact absurd hcontra (wrapped_getState_ne_timeout e)
    | none =>
      by_cases hr : st = MachineState.running
      · simp [waitForRunningServer, hGS, hr]
      · have hto : ¬ (d.waitForRunningTimeout > 0 ∧ elapsed i > d.waitForRunningTimeout) := by
          rw [h0]; simp
        simp [waitForRunningServer, hGS, hr, hto]
        exact fun hcontra => absurd hcontra (ih (i + 1))

theorem waitRun_sleeps_at_interval (views : Nat → Int → Except String (Option HServer))
    (elapsed : Nat → Int) (d : Driver) :
    ∀ (fuel i : Nat) (s : Int),
      Ev.slept s ∈ (waitForRunningServer views elapsed d i fuel).2 →
      s = d.waitOnPolling := by
  intro fuel
  induction fuel with
  | zero => intro i s h; simp [waitForRunningServer] at h
  | succ f ih =>
    intro i s h
    rcases hGS : GetState (views i) d with ⟨st, err⟩
    cases err with
    | some e => simp [waitForRunningServer, hGS] at h
    | none =>
      by_cases hr : st = MachineState.running
      · simp [waitForRunningServer, hGS, hr] at h
      · by_cases hto : d.waitForRunningTimeout > 0 ∧ elapsed i > d.waitForRunningTimeout
        · simp [waitForRunningServer, hGS, hr, hto] at h
        · simp [waitForRunningServer, hGS, hr, hto] at h
          rcases h with h | h
          · exact h
          · exact ih (i + 1) s h

/-- C6: the running-server wait polls the state at the configured
interval until the server reports running; with a positive configured
timeout, exceeding it on a non-running poll aborts with the
timeout-specific error; with the zero (default) timeout the loop never
produces that error, continuing indefinitely. -/
theorem waitForRunningServer_spec (views : Nat → Int → Except String (Option HServer))
    (elapsed : Nat → Int) (d : Driver) :
    (∀ fuel k, k < fuel →
      (∀ j, j < k → continuesAt views elapsed d j) →
      (GetState (views k) d).2 = none →
      (GetState (views k) d).1 = MachineState.running →
      (waitForRunningServer views elapsed d 0 fuel).1 = some (Except.ok ()))
  ∧ (∀ fuel k, k < fuel →
      (∀ j, j < k → continuesAt views elapsed d j) →
      (GetState (views k) d).2 = none →
      (GetState (views k) d).1 ≠ MachineState.running →
      d.waitForRunningTimeout > 0 → elapsed k > d.waitForRunningTimeout →
      (waitForRunningServer views elapsed d 0 fuel).1
        = some (Except.error "server exceeded wait-for-running-timeout"))
  ∧ (d.waitForRunningTimeout = 0 →
      ∀ fuel i, (waitForRunningServer views elapsed d i fuel).1
        ≠ some (Except.error "server exceeded wait-for-running-timeout"))
  ∧ (∀ fuel i s, Ev.slept s ∈ (waitForRunningServer views elapsed d i fuel).2 →
      s = d.waitOnPolling) := by
  refine ⟨?_, ?_, ?_, ?_⟩
  · intro fuel k hk hcont h2 h1
    apply waitRun_reaches views elapsed d k 0 fuel hk
    · intro j hj
      have hx := hcont j hj
      rwa [show (0 : Nat) + j = j by omega]
    · rwa [show (0 : Nat) + k = k by omega]
    · rwa [show (0 : Nat) + k = k by omega]
  · intro fuel k hk hcont h2 h1 hpos hel
    apply waitRun_timesOut views elapsed d k 0 fuel hk
    · intro j hj
      have hx := hcont j hj
      rwa [show (0 : Nat) + j = j by omega]
    · rwa [show (0 : Nat) + k = k by omega]
    · rwa [show (0 : Nat) + k = k by omega]
    · exact hpos
    · rwa [show (0 : Nat) + k = k by omega]
  · intro h0 fuel i
    exact waitRun_no_timeout_error views elapsed d h0 fuel i
  · intro fuel i s h
    exact waitRun_sleeps_at_interval views elapsed d fuel i s h

/-- Witness for C6: a server that is off on the first poll and running on
the second is waited for successfully; an off server past a positive
timeout aborts with the timeout error. -/
theorem waitForRunningServer_spec_witness :
    (waitForRunningServer
        (fun i _ => Except.ok (some (if i = 0 then { cexServer with status := "off" }
                                     else { cexServer with status := "running" })))
        (fun _ => 0) ({} : Driver) 0 3).1 = some (Except.ok ())
  ∧ (waitForRunningServer
        (fun _ _ => Except.ok (some { cexServer with status := "off" }))
        (fun _ => 9) { ({} : Driver) with waitForRunningTimeout := 5 } 0 3).1
      = some (Except.error "server exceeded wait-for-running-timeout") := by
  constructor
  · exact (waitForRunningServer_spec
      (fun i _ => Except.ok (some (if i = 0 then { cexServer with status := "off" }
                                   else { cexServer with status := "running" })))
      (fun _ => 0) ({} : Driver)).1 3 1 (by decide) (by decide) (by decide) (by decide)
  · exact (waitForRunningServer_spec
      (fun _ _ => Except.ok (some { cexServer with status := "off" }))
      (fun _ => 9) { ({} : Driver) with waitForRunningTimeout := 5 }).2.1 3 0
      (by decide) (by intro j hj; omega) (by decide) (by decide) (by decide) (by decide)

theorem getLocation_memo : ∀ (c : Client) (d : Driver) v d1 t,
    getLocation c d = (Except.ok v, d1, t) →
    getLocation c d1 = (Except.ok v, d1, []) := by
  intro c d v d1 t h
  unfold getLocation at h ⊢
  cases hc : d.cachedLocation with
  | some loc =>
    rw [hc] at h
    simp only [Prod.mk.injEq, Except.ok.injEq] at h
    obtain ⟨rfl, rfl, rfl⟩ := h
    rw [hc]
  | none =>
    rw [hc] at h
    cases hr : c.locationGetByName d.location with
    | error e => rw [hr] at h; simp at h
    | ok o =>
      rw [hr] at h
      cases o with
      | none => simp at h
      | some loc =>
        simp only [Prod.mk.injEq, Except.ok.injEq] at h
        obtain ⟨rfl, rfl, rfl⟩ := h
        simp

theorem getType_memo : ∀ (c : Client) (d : Driver) v d1 t,
    getType c d = (Except.ok v, d1, t) →
    getType c d1 = (Except.ok v, d1, []) := by
  intro c d v d1 t h
  unfold getType at h ⊢
  cases hc : d.cachedType with
  | some stype =>
    rw [hc] at h
    simp only [Prod.mk.injEq, Except.ok.injEq] at h
    obtain ⟨rfl, rfl, rfl⟩ := h
    rw [hc]
  | none =>
    rw [hc] at h
    cases hr : c.serverTypeGetByName d.serverTyp with
    | error e => rw [hr] at h; simp at h
    | ok o =>
      rw [hr] at h
      cases o with
      | none => simp at h
      | some stype =>
        simp only [Prod.mk.injEq, Except.ok.injEq] at h
        obtain ⟨rfl, rfl, rfl⟩ := h
        simp

theorem getKey_memo : ∀ (c : Client) (d : Driver) v d1 t,
    getKey c d = (Except.ok v, d1, t) →
    getKey c d1 = (Except.ok v, d1, []) := by
  intro c d v d1 t h
  unfold getKey at h ⊢
  cases hc : d.cachedKey with
  | some key =>
    rw [hc] at h
    simp only [Prod.mk.injEq, Except.ok.injEq] at h
    obtain ⟨rfl, rfl, rfl⟩ := h
    rw [hc]
  | none =>
    rw [hc] at h
    cases hr : c.sshKeyGetByID d.keyID with
    | error e => rw [hr] at h; simp at h
    | ok o =>
      rw [hr] at h
      cases o with
      | none => simp at h
      | some key =>
        simp only [Prod.mk.injEq, Except.ok.injEq] at h
        obtain ⟨rfl, rfl, rfl⟩ := h
        simp

theorem getImage_memo : ∀ (c : Client) (d : Driver) v d1 t,
    getImage c d = (Except.ok v, d1, t) →
    getImage c d1 = (Except.ok v, d1, []) := by
  intro c d v d1 t h
  unfold getImage at h ⊢
  cases hc : d.cachedImage with
  | some img =>
    rw [hc] at h
    simp only [Prod.mk.injEq, Except.ok.injEq] at h
    obtain ⟨rfl, rfl, rfl⟩ := h
    rw [hc]
  | none =>
    rw [hc] at h
    by_cases hid : d.imageID ≠ 0
    · rw [if_pos hid] at h
      cases hr : c.imageGetByID d.imageID with
      | error e => rw [hr] at h; simp at h
      | ok o =>
        rw [hr] at h
        cases o with
        | none => simp at h
        | some img =>
          simp only [Prod.mk.injEq, Except.ok.injEq] at h
          obtain ⟨rfl, rfl, rfl⟩ := h
          simp
    · rw [if_neg hid] at h
      rcases ha : getImageArchitectureForLookup c d with ⟨ra, da, ta⟩
      rw [ha] at h
      cases ra with
      | error e => simp at h
      | ok arch =>
        simp only at h
        cases hr : c.imageGetByNameAndArchitecture da.image arch with
        | error e => rw [hr] at h; simp at h
        | ok o =>
          rw [hr] at h
          cases o with
          | none => simp at h
          | some img =>
            simp only [Prod.mk.injEq, Except.ok.injEq] at h
            obtain ⟨rfl, rfl, rfl⟩ := h
            simp

theorem getPrimaryIPv4_memo : ∀ (c : Client) (d : Driver) ip d1 t,
    getPrimaryIPv4 c d = (Except.ok (some ip), d1, t) →
    getPrimaryIPv4 c d1 = (Except.ok (some ip), d1, []) := by
  intro c d ip d1 t h
  unfold getPrimaryIPv4 at h ⊢
  by_cases hp : d.primaryIPv4 = ""
  · rw [if_pos hp] at h
    simp at h
  · rw [if_neg hp] at h
    cases hc : d.cachedPrimaryIPv4 with
    | some ip0 =>
      rw [hc] at h
      simp only [Prod.mk.injEq, Except.ok.injEq, Option.some.injEq] at h
      obtain ⟨rfl, rfl, rfl⟩ := h
      rw [if_neg hp, hc]
    | none =>
      rw [hc] at h
      rcases hres : resolvePrimaryIP c d.primaryIPv4 with ⟨r, t0⟩
      rw [hres] at h
      cases r with
      | error e => simp at h
      | ok ip1 =>
        simp only [Prod.mk.injEq, Except.ok.injEq, Option.some.injEq] at h
        obtain ⟨rfl, rfl, rfl⟩ := h
        rw [if_neg hp]

theorem getPrimaryIPv6_memo : ∀ (c : Client) (d : Driver) ip d1 t,
    getPrimaryIPv6 c d = (Except.ok (some ip), d1, t) →
    getPrimaryIPv6 c d1 = (Except.ok (some ip), d1, []) := by
  intro c d ip d1 t h
  unfold getPrimaryIPv6 at h ⊢
  by_cases hp : d.primaryIPv6 = ""
  · rw [if_pos hp] at h
    simp at h
  · rw [if_neg hp] at h
    cases hc : d.cachedPrimaryIPv6 with
    | some ip0 =>
      rw [hc] at h
      simp only [Prod.mk.injEq, Except.ok.injEq, Option.some.injEq] at h
      obtain ⟨rfl, rfl, rfl⟩ := h
      rw [if_neg hp, hc]
    | none =>
      rw [hc] at h
      rcases hres : resolvePrimaryIP c d.primaryIPv6 with ⟨r, t0⟩
      rw [hres] at h
      cases r with
      | error e => simp at h
      | ok ip1 =>
        simp only [Prod.mk.injEq, Except.ok.injEq, Option.some.injEq] at h
        obtain ⟨rfl, rfl, rfl⟩ := h
        rw [if_neg hp]

theorem getServerHandleNullable_memo : ∀ (c : Client) (d : Driver) srv d1 t,
    getServerHandleNullable c d = (Except.ok (some srv), d1, t) →
    getServerHandleNullable c d1 = (Except.ok (some srv), d1, []) := by
  intro c d srv d1 t h
  unfold getServerHandleNullable at h ⊢
  cases hc : d.cachedServer with
  | some srv0 =>
    rw [hc] at h
    simp only [Prod.mk.injEq, Except.ok.injEq, Option.some.injEq] at h
    obtain ⟨rfl, rfl, rfl⟩ := h
    rw [hc]
  | none =>
    rw [hc] at h
    by_cases hz : d.serverID = 0
    · rw [if_pos hz] at h
      simp at h
    · rw [if_neg hz] at h
      cases hr : c.serverGetByID d.serverID with
      | error e => rw [hr] at h; simp at h
      | ok o =>
        rw [hr] at h
        simp only [Prod.mk.injEq, Except.ok.injEq] at h
        obtain ⟨rfl, rfl, rfl⟩ := h
        simp

theorem makePlacementGroup_pgField : ∀ (c : Client) (d : Driver) n l,
    ((makePlacementGroup c d n l).2.1).placementGroup = d.placementGroup
    ∧ ((makePlacementGroup c d n l).2.1).cachedPGrp = d.cachedPGrp := by
  intro c d n l
  unfold makePlacementGroup
  rcases c.pgrpCreate n l with ⟨g, err⟩
  cases g <;> cases err <;> simp

theorem getAuto_pgField : ∀ (c : Client) (d : Driver),
    ((getAutoPlacementGroup c d).2.1).placementGroup = d.placementGroup
    ∧ ((getAutoPlacementGroup c d).2.1).cachedPGrp = d.cachedPGrp := by
  intro c d
  unfold getAutoPlacementGroup
  cases hr : c.pgrpAllWithSelector (labelName labelAutoSpreadPg) with
  | error e => simp
  | ok res =>
    cases res with
    | nil =>
      rcases hm : makePlacementGroup c d "Docker-Machine auto spread"
        [(labelName labelAutoSpreadPg, "true"), (labelName labelAutoCreated, "true")]
        with ⟨r, dm, tm⟩
      have := makePlacementGroup_pgField c d "Docker-Machine auto spread"
        [(labelName labelAutoSpreadPg, "true"), (labelName labelAutoCreated, "true")]
      rw [hm] at this
      simp [hm]
      exact this
    | cons g gs => simp

theorem getPlacementGroup_autospread_memo : ∀ (c : Client) (d : Driver) g d1 t,
    d.placementGroup = autoSpreadPgName →
    getPlacementGroup c d = (Except.ok (some g), d1, t) →
    getPlacementGroup c d1 = (Except.ok (some g), d1, []) := by
  intro c d g d1 t hpg h
  have h0 : ¬ d.placementGroup = "" := by rw [hpg]; decide
  unfold getPlacementGroup at h ⊢
  rw [if_neg h0] at h
  cases hc : d.cachedPGrp with
  | some g0 =>
    rw [hc] at h
    simp only [Prod.mk.injEq, Except.ok.injEq, Option.some.injEq] at h
    obtain ⟨rfl, rfl, rfl⟩ := h
    rw [if_neg h0, hc]
  | none =>
    rw [hc, hpg, if_pos rfl] at h
    rcases hga : getAutoPlacementGroup c d with ⟨rg, dg, tg⟩
    have hfields := getAuto_pgField c d
    rw [hga] at h hfields
    cases rg with
    | error e => simp at h
    | ok gopt =>
      simp only [Prod.mk.injEq, Except.ok.injEq] at h
      obtain ⟨rfl, rfl, rfl⟩ := h
      have hpg1 : ({ dg with cachedPGrp := some g } : Driver).placementGroup
          = autoSpreadPgName := by
        simpa [hpg] using hfields.1
      rw [if_neg (by rw [hpg1]; decide)]

/-- Counterexample to C3: resolving a placement group by name succeeds
but writes nothing back to the cache (the returned driver equals the
input driver with `cachedPGrp` still `none`), so the repeat call — being
the very same call on the very same state — performs the remote lookup
again (the single-call event trace contains a remote operation), instead
of returning a cached value without a remote round-trip. -/
theorem memoization_counterexample :
    pgCexDriver.cachedPGrp = none
  ∧ getPlacementGroup pgCexClient pgCexDriver
      = (Except.ok (some pgCexGroup), pgCexDriver, [Ev.rem (RemoteOp.pgrpGetOp "pg1")]) :=
  ⟨rfl, rfl⟩

/-- C3 (amended): every memoized getter — location, server type, image,
primary SSH key, primary IPv4/IPv6, server handle, and the auto-spread
placement-group path — returns, after a first successful resolution, the
cached value on every subsequent call with no remote lookup (empty event
trace); the placement group resolved by name is the exception: it is
never cached and is re-fetched on each call. -/
theorem memoization_amended :
    (∀ (c : Client) (d : Driver) v d1 t, getLocation c d = (Except.ok v, d1, t) →
      getLocation c d1 = (Except.ok v, d1, []))
  ∧ (∀ (c : Client) (d : Driver) v d1 t, getType c d = (Except.ok v, d1, t) →
      getType c d1 = (Except.ok v, d1, []))
  ∧ (∀ (c : Client) (d : Driver) v d1 t, getImage c d = (Except.ok v, d1, t) →
      getImage c d1 = (Except.ok v, d1, []))
  ∧ (∀ (c : Client) (d : Driver) v d1 t, getKey c d = (Except.ok v, d1, t) →
      getKey c d1 = (Except.ok v, d1, []))
  ∧ (∀ (c : Client) (d : Driver) ip d1 t,
      getPrimaryIPv4 c d = (Except.ok (some ip), d1, t) →
      getPrimaryIPv4 c d1 = (Except.ok (some ip), d1, []))
  ∧ (∀ (c : Client) (d : Driver) ip d1 t,
      getPrimaryIPv6 c d = (Except.ok (some ip), d1, t) →
      getPrimaryIPv6 c d1 = (Except.ok (some ip), d1, []))
  ∧ (∀ (c : Client) (d : Driver) srv d1 t,
      getServerHandleNullable c d = (Except.ok (some srv), d1, t) →
      getServerHandleNullable c d1 = (Except.ok (some srv), d1, []))
  ∧ (∀ (c : Client) (d : Driver) g d1 t, d.placementGroup = autoSpreadPgName →
      getPlacementGroup c d = (Except.ok (some g), d1, t) →
      getPlacementGroup c d1 = (Except.ok (some g), d1, [])) :=
  ⟨getLocation_memo, getType_memo, getImage_memo, getKey_memo,
   getPrimaryIPv4_memo, getPrimaryIPv6_memo, getServerHandleNullable_memo,
   getPlacementGroup_autospread_memo⟩

/-- Witness for the amended C3: a concrete location resolution is served
from the cache, with no remote call, on the repeat call. -/
theorem memoization_amended_witness :
    getLocation { errClient with locationGetByName := fun _ => Except.ok (some { id := 1, name := "fsn1" }) }
      { ({} : Driver) with location := "fsn1", cachedLocation := some { id := 1, name := "fsn1" } }
    = (Except.ok { id := 1, name := "fsn1" },
       { ({} : Driver) with location := "fsn1", cachedLocation := some { id := 1, name := "fsn1" } },
       []) :=
  memoization_amended.1
    { errClient with locationGetByName := fun _ => Except.ok (some { id := 1, name := "fsn1" }) }
    { ({} : Driver) with location := "fsn1" }
    { id := 1, name := "fsn1" }
    { ({} : Driver) with location := "fsn1", cachedLocation := some { id := 1, name := "fsn1" } }
    [Ev.rem (RemoteOp.locGetByName "fsn1")]
    rfl

/-- C4: in `Remove`, the additional-keys pass contributes only lookup and
delete attempts whose outcomes never influence the result (their failures
are logged, not returned), while a recorded, driver-owned primary key
makes the final lookup-and-delete fatal: its failure is the failure of
`Remove` as a whole.  (Server destruction failures also propagate, as in
the source.) -/
theorem remove_soft_vs_fatal (env : CreateEnv) (c : Client) (d : Driver) (fuel : Nat) :
    (∀ e d1 t1, destroyServer env c d fuel = some (Except.error e, d1, t1) →
      Remove env c d fuel = some (Except.error e, d1, t1))
  ∧ (∀ d1 t1, destroyServer env c d fuel = some (Except.ok (), d1, t1) →
      ((d1.isExistingKey = true ∨ d1.keyID = 0 →
        Remove env c d fuel
          = some (Except.ok (), d1, t1 ++ removeAdditionalKeys c d1.additionalKeyIDs))
      ∧ (d1.isExistingKey = false → d1.keyID ≠ 0 →
          ((∀ e d2 t3, getKey c d1 = (Except.error e, d2, t3) →
            Remove env c d fuel = some (Except.error ("could not get ssh key: " ++ e), d2,
              t1 ++ removeAdditionalKeys c d1.additionalKeyIDs ++ t3))
          ∧ (∀ key d2 t3, getKey c d1 = (Except.ok key, d2, t3) →
              ((∀ e, c.sshKeyDelete (some key.id) = Except.error e →
                Remove env c d fuel
                  = some (Except.error ("could not delete ssh key: " ++ e), d2,
                      t1 ++ removeAdditionalKeys c d1.additionalKeyIDs ++ t3
                        ++ [Ev.rem (RemoteOp.keyDelete (some key.id))]))
              ∧ (c.sshKeyDelete (some key.id) = Except.ok () →
                  Remove env c d fuel = some (Except.ok (), d2,
                    t1 ++ removeAdditionalKeys c d1.additionalKeyIDs ++ t3
                      ++ [Ev.rem (RemoteOp.keyDelete (some key.id))])))))))) := by
  constructor
  · intro e d1 t1 hd
    unfold Remove
    rw [hd]
  · intro d1 t1 hd
    constructor
    · intro hskip
      have hcond : ¬ (¬ d1.isExistingKey ∧ d1.keyID ≠ 0) := by
        rcases hskip with h | h
        · simp [h]
        · simp [h]
      unfold Remove
      rw [hd]
      simp only
      rw [if_neg hcond]
    · intro hex hkid
      have hcond : (¬ d1.isExistingKey ∧ d1.keyID ≠ 0) := by simp [hex, hkid]
      constructor
      · intro e d2 t3 hk
        unfold Remove
        rw [hd]
        simp only
        rw [if_pos hcond, hk]
      · intro key d2 t3 hk
        constructor
        · intro e hdel
          unfold Remove
          rw [hd]
          simp only
          rw [if_pos hcond, hk]
          simp only
          rw [hdel]
        · intro hdel
          unfold Remove
          rw [hd]
          simp only
          rw [if_pos hcond, hk]
          simp only
          rw [hdel]

/-- Witness for C4: both additional-key operations fail (missing key,
refused delete) yet `Remove` succeeds, while the owned primary key is
looked up and deleted. -/
theorem remove_soft_vs_fatal_witness :
    Remove errEnv
      { errClient with
        sshKeyGetByID := fun i =>
          if i = 7 then Except.ok (some { id := 7, name := "k", fingerprint := "f" })
          else Except.error "gone",
        sshKeyDelete := fun tgt => if tgt = some 7 then Except.ok () else Except.error "denied" }
      { ({} : Driver) with keyID := 7, additionalKeyIDs := [1] } 1
    = some (Except.ok (),
        { ({} : Driver) with
          keyID := 7, additionalKeyIDs := [1],
          cachedKey := some { id := 7, name := "k", fingerprint := "f" } },
        [Ev.rem (RemoteOp.keyGetByID 1), Ev.rem (RemoteOp.keyDelete none),
         Ev.rem (RemoteOp.keyGetByID 7), Ev.rem (RemoteOp.keyDelete (some 7))]) := by
  have h := ((remove_soft_vs_fatal errEnv
      { errClient with
        sshKeyGetByID := fun i =>
          if i = 7 then Except.ok (some { id := 7, name := "k", fingerprint := "f" })
          else Except.error "gone",
        sshKeyDelete := fun tgt => if tgt = some 7 then Except.ok () else Except.error "denied" }
      { ({} : Driver) with keyID := 7, additionalKeyIDs := [1] } 1).2
      { ({} : Driver) with keyID := 7, additionalKeyIDs := [1] } [] rfl).2
      rfl (by decide)
  have h2 := (h.2 { id := 7, name := "k", fingerprint := "f" }
      { ({} : Driver) with
        keyID := 7, additionalKeyIDs := [1],
        cachedKey := some { id := 7, name := "k", fingerprint := "f" } }
      [Ev.rem (RemoteOp.keyGetByID 7)] rfl).2 rfl
  simpa using h2

/-! Dangling-list bookkeeping lemmas, one per provisioning step, feeding
the C1 rollback theorem. -/

theorem dangSound_self (d : Driver) (t : List Ev) (h1 : regsOf t = [])
    (h2 : invsOf t = []) : DanglingSound d d t :=
  ⟨h2, by simp [h1]⟩

theorem dangSound_comp {d d1 d2 : Driver} {t1 t2 : List Ev}
    (ha : DanglingSound d d1 t1) (hb : DanglingSound d1 d2 t2) :
    DanglingSound d d2 (t1 ++ t2) := by
  obtain ⟨i1, g1⟩ := ha
  obtain ⟨i2, g2⟩ := hb
  exact ⟨by simp [i1, i2], by simp [g2, g1, List.append_assoc]⟩

theorem dangSound_traceRight {d d' : Driver} {t t' : List Ev}
    (h : DanglingSound d d' t) (h1 : regsOf t' = []) (h2 : invsOf t' = []) :
    DanglingSound d d' (t ++ t') := by
  obtain ⟨i, g⟩ := h
  exact ⟨by simp [i, h2], by simp [g, h1]⟩

theorem dangSound_getLocation (c : Client) (d : Driver) :
    DanglingSound d (getLocation c d).2.1 (getLocation c d).2.2 := by
  unfold getLocation
  cases d.cachedLocation with
  | some loc => simp [DanglingSound]
  | none =>
    cases c.locationGetByName d.location with
    | error e => simp [DanglingSound]
    | ok o => cases o <;> simp [DanglingSound]

theorem dangSound_getType (c : Client) (d : Driver) :
    DanglingSound d (getType c d).2.1 (getType c d).2.2 := by
  unfold getType
  cases d.cachedType with
  | some stype => simp [DanglingSound]
  | none =>
    cases c.serverTypeGetByName d.serverTyp with
    | error e => simp [DanglingSound]
    | ok o => cases o <;> simp [DanglingSound]

theorem dangSound_getKey (c : Client) (d : Driver) :
    DanglingSound d (getKey c d).2.1 (getKey c d).2.2 := by
  unfold getKey
  cases d.cachedKey with
  | some key => simp [DanglingSound]
  | none =>
    cases c.sshKeyGetByID d.keyID with
    | error e => simp [DanglingSound]
    | ok o => cases o <;> simp [DanglingSound]

theorem dangSound_getServerHandleNullable (c : Client) (d : Driver) :
    DanglingSound d (getServerHandleNullable c d).2.1 (getServerHandleNullable c d).2.2 := by
  unfold getServerHandleNullable
  cases d.cachedServer with
  | some srv => simp [DanglingSound]
  | none =>
    by_cases hz : d.serverID = 0
    · simp [hz, DanglingSound]
    · rw [if_neg hz]
      cases c.serverGetByID d.serverID with
      | error e => simp [DanglingSound]
      | ok o => simp [DanglingSound]

theorem resolvePrimaryIP_trace (c : Client) (raw : String) :
    (resolvePrimaryIP c raw).2 = [Ev.rem (RemoteOp.primaryIPGetOp raw)] := by
  simp only [resolvePrimaryIP]
  split <;> rfl

theorem dangSound_getPrimaryIPv4 (c : Client) (d : Driver) :
    DanglingSound d (getPrimaryIPv4 c d).2.1 (getPrimaryIPv4 c d).2.2 := by
  unfold getPrimaryIPv4
  by_cases hp : d.primaryIPv4 = ""
  · simp [hp, DanglingSound]
  · rw [if_neg hp]
    cases d.cachedPrimaryIPv4 with
    | some ip => simp [DanglingSound]
    | none =>
      rcases hres : resolvePrimaryIP c d.primaryIPv4 with ⟨r, t0⟩
      have ht0 : t0 = [Ev.rem (RemoteOp.primaryIPGetOp d.primaryIPv4)] := by
        have := resolvePrimaryIP_trace c d.primaryIPv4
        rw [hres] at this
        exact this
      cases r <;> simp [DanglingSound, ht0]

theorem dangSound_getPrimaryIPv6 (c : Client) (d : Driver) :
    DanglingSound d (getPrimaryIPv6 c d).2.1 (getPrimaryIPv6 c d).2.2 := by
  unfold getPrimaryIPv6
  by_cases hp : d.primaryIPv6 = ""
  · simp [hp, DanglingSound]
  · rw [if_neg hp]
    cases d.cachedPrimaryIPv6 with
    | some ip => simp [DanglingSound]
    | none =>
      rcases hres : resolvePrimaryIP c d.primaryIPv6 with ⟨r, t0⟩
      have ht0 : t0 = [Ev.rem (RemoteOp.primaryIPGetOp d.primaryIPv6)] := by
        have := resolvePrimaryIP_trace c d.primaryIPv6
        rw [hres] at this
        exact this
      cases r <;> simp [DanglingSound, ht0]

theorem dangSound_getImageArch (c : Client) (d : Driver) :
    DanglingSound d (getImageArchitectureForLookup c d).2.1
      (getImageArchitectureForLookup c d).2.2 := by
  unfold getImageArchitectureForLookup
  by_cases ha : d.imageArch ≠ ""
  · simp [ha, DanglingSound]
  · rw [if_neg ha]
    rcases hg : getType c d with ⟨r, d1, t⟩
    have h2 := dangSound_getType c d
    rw [hg] at h2
    cases r <;> exact h2

theorem dangSound_getImage (c : Client) (d : Driver) :
    DanglingSound d (getImage c d).2.1 (getImage c d).2.2 := by
  unfold getImage
  cases d.cachedImage with
  | some img => simp [DanglingSound]
  | none =>
    by_cases hid : d.imageID ≠ 0
    · rw [if_pos hid]
      cases c.imageGetByID d.imageID with
      | error e => simp [DanglingSound]
      | ok o => cases o <;> simp [DanglingSound]
    · rw [if_neg hid]
      rcases hg : getImageArchitectureForLookup c d with ⟨r, d1, t⟩
      have h2 := dangSound_getImageArch c d
      rw [hg] at h2
      cases r with
      | error e => exact h2
      | ok arch =>
        refine ⟨?_, ?_⟩
        · repeat' split
          all_goals simp_all [DanglingSound]
        · repeat' split
          all_goals simp_all [DanglingSound]

theorem dangSound_makeKey (c : Client) (d : Driver) (n p : String)
    (l : List (String × String)) :
    DanglingSound d (makeKey c d n p l).2.1 (makeKey c d n p l).2.2 := by
  unfold makeKey
  cases c.sshKeyCreate n p l with
  | error e => simp [DanglingSound]
  | ok o => cases o <;> simp [DanglingSound]

theorem dangSound_makePlacementGroup (c : Client) (d : Driver) (n : String)
    (l : List (String × String)) :
    DanglingSound d (makePlacementGroup c d n l).2.1 (makePlacementGroup c d n l).2.2 := by
  simp only [makePlacementGroup]
  rcases c.pgrpCreate n l with ⟨g, err⟩
  cases g <;> cases err <;> simp [DanglingSound]

theorem noRoll_getRemoteKeyNullable (env : CreateEnv) (c : Client) (p : String) :
    regsOf (getRemoteKeyWithSameFingerprintNullable env c p).2 = []
    ∧ invsOf (getRemoteKeyWithSameFingerprintNullable env c p).2 = [] := by
  unfold getRemoteKeyWithSameFingerprintNullable
  cases env.fingerprintOf p with
  | error e => simp
  | ok fp =>
    constructor
    · repeat' split
      all_goals simp_all
    · repeat' split
      all_goals simp_all

theorem noRoll_createNetworks (c : Client) :
    ∀ refs, regsOf (createNetworks c refs).2 = [] ∧ invsOf (createNetworks c refs).2 = [] := by
  intro refs
  induction refs with
  | nil => simp [createNetworks]
  | cons ref rest ih =>
    unfold createNetworks
    cases c.networkGet ref with
    | error e => simp
    | ok o =>
      cases o with
      | none => simp
      | some n =>
        rcases hr : createNetworks c rest with ⟨r, t⟩
        rw [hr] at ih
        cases r <;> simpa using ih

theorem noRoll_createFirewalls (c : Client) :
    ∀ refs, regsOf (createFirewalls c refs).2 = [] ∧ invsOf (createFirewalls c refs).2 = [] := by
  intro refs
  induction refs with
  | nil => simp [createFirewalls]
  | cons ref rest ih =>
    unfold createFirewalls
    cases c.firewallGet ref with
    | error e => simp
    | ok o =>
      cases o with
      | none => simp
      | some f =>
        rcases hr : createFirewalls c rest with ⟨r, t⟩
        rw [hr] at ih
        cases r <;> simpa using ih

theorem noRoll_createVolumes (c : Client) :
    ∀ refs, regsOf (createVolumes c refs).2 = [] ∧ invsOf (createVolumes c refs).2 = [] := by
  intro refs
  induction refs with
  | nil => simp [createVolumes]
  | cons ref rest ih =>
    unfold createVolumes
    cases c.volumeGet ref with
    | error e => simp
    | ok o =>
      cases o with
      | none => simp
      | some v =>
        rcases hr : createVolumes c rest with ⟨r, t⟩
        rw [hr] at ih
        cases r <;> simpa using ih

theorem dangSound_getAutoPlacementGroup (c : Client) (d : Driver) :
    DanglingSound d (getAutoPlacementGroup c d).2.1 (getAutoPlacementGroup c d).2.2 := by
  unfold getAutoPlacementGroup
  cases c.pgrpAllWithSelector (labelName labelAutoSpreadPg) with
  | error e => simp [DanglingSound]
  | ok res =>
    cases res with
    | cons g gs => simp [DanglingSound]
    | nil =>
      rcases hm : makePlacementGroup c d "Docker-Machine auto spread"
        [(labelName labelAutoSpreadPg, "true"), (labelName labelAutoCreated, "true")]
        with ⟨r, dm, tm⟩
      have hs := dangSound_makePlacementGroup c d "Docker-Machine auto spread"
        [(labelName labelAutoSpreadPg, "true"), (labelName labelAutoCreated, "true")]
      rw [hm] at hs
      exact ⟨by simpa using hs.1, by simpa using hs.2⟩

theorem dangSound_getPlacementGroup (c : Client) (d : Driver) :
    DanglingSound d (getPlacementGroup c d).2.1 (getPlacementGroup c d).2.2 := by
  simp only [getPlacementGroup]
  by_cases h0 : d.placementGroup = ""
  · simp [h0, DanglingSound]
  · rw [if_neg h0]
    cases d.cachedPGrp with
    | some g => simp [DanglingSound]
    | none =>
      by_cases hauto : d.placementGroup = autoSpreadPgName
      · rw [if_pos hauto]
        rcases hga : getAutoPlacementGroup c d with ⟨rg, dg, tg⟩
        have hs := dangSound_getAutoPlacementGroup c d
        rw [hga] at hs
        cases rg with
        | error e => exact ⟨hs.1, by simpa using hs.2⟩
        | ok gopt => exact ⟨hs.1, by simpa using hs.2⟩
      · rw [if_neg hauto]
        cases c.pgrpGet d.placementGroup with
        | error e => simp [DanglingSound]
        | ok o =>
          cases o with
          | some g => simp [DanglingSound]
          | none =>
            rcases hm : makePlacementGroup c d d.placementGroup
              [(labelName labelAutoCreated, "true")] with ⟨r, dm, tm⟩
            have hs := dangSound_makePlacementGroup c d d.placementGroup
              [(labelName labelAutoCreated, "true")]
            rw [hm] at hs
            exact ⟨by simpa using hs.1, by simpa using hs.2⟩

theorem dangSound_setPublicNet (c : Client) (d : Driver) (srvopts : ServerCreateOpts) :
    DanglingSound d (setPublicNetIfRequired c d srvopts).2.1
      (setPublicNetIfRequired c d srvopts).2.2 := by
  unfold setPublicNetIfRequired
  split
  · rename_i e d1 t1 heq
    have H4 := dangSound_getPrimaryIPv4 c d
    rw [heq] at H4
    exact H4
  · rename_i pip4 d1 t1 heq
    have H4 := dangSound_getPrimaryIPv4 c d
    rw [heq] at H4
    split
    · rename_i e d2 t2 heq2
      have H6 := dangSound_getPrimaryIPv6 c d1
      rw [heq2] at H6
      exact dangSound_comp H4 H6
    · rename_i pip6 d2 t2 heq2
      have H6 := dangSound_getPrimaryIPv6 c d1
      rw [heq2] at H6
      split <;> exact dangSound_comp H4 H6

theorem noRoll_waitForAction (polls : Nat → Except String (Option HAction))
    (d : Driver) (a : HAction) :
    ∀ fuel i, regsOf (waitForAction polls d a i fuel).2 = []
      ∧ invsOf (waitForAction polls d a i fuel).2 = [] := by
  intro fuel
  induction fuel with
  | zero => intro i; simp [waitForAction]
  | succ f ih =>
    intro i
    unfold waitForAction
    cases polls i with
    | error e => simp
    | ok o =>
      cases o with
      | none => simp
      | some act =>
        by_cases hs : act.status = "success"
        · simp [hs]
        · by_cases he : act.status = "error"
          · simp [hs, he]
          · rcases hr : waitForAction polls d a (i + 1) f with ⟨r, t⟩
            have := ih (i + 1)
            rw [hr] at this
            simp [hs, he, hr]
            simpa using this

theorem noRoll_waitForRunningServerLegacy
    (views : Nat → Int → Except String (Option HServer)) (d : Driver) :
    ∀ fuel i, regsOf (waitForRunningServerLegacy views d i fuel).2 = []
      ∧ invsOf (waitForRunningServerLegacy views d i fuel).2 = [] := by
  intro fuel
  induction fuel with
  | zero => intro i; simp [waitForRunningServerLegacy]
  | succ f ih =>
    intro i
    unfold waitForRunningServerLegacy
    rcases hGS : GetState (views i) d with ⟨st, err⟩
    cases err with
    | some e => simp
    | none =>
      by_cases hr : st = MachineState.running
      · simp [hr]
      · rcases hw : waitForRunningServerLegacy views d (i + 1) f with ⟨r, t⟩
        have := ih (i + 1)
        rw [hw] at this
        simp [hr, hw]
        simpa using this

theorem waitForPrivateNet_sound (env : CreateEnv) (d : Driver) (sid : Int) :
    ∀ fuel i, (regsOf (waitForPrivateNet env d sid i fuel).2 = []
      ∧ invsOf (waitForPrivateNet env d sid i fuel).2 = [])
      ∧ ∀ res d', (waitForPrivateNet env d sid i fuel).1 = some (res, d') →
          d'.dangling = d.dangling ∧ d'.serverID = d.serverID := by
  intro fuel
  induction fuel with
  | zero => intro i; simp [waitForPrivateNet]
  | succ f ih =>
    intro i
    unfold waitForPrivateNet
    split
    · refine ⟨by simp, ?_⟩
      intro res d' h
      simp only [Option.some.injEq, Prod.mk.injEq] at h
      obtain ⟨-, rfl⟩ := h
      exact ⟨rfl, rfl⟩
    · split
      · refine ⟨by simp, ?_⟩
        intro res d' h
        simp only [Option.some.injEq, Prod.mk.injEq] at h
        obtain ⟨-, rfl⟩ := h
        exact ⟨rfl, rfl⟩
      · split
        rename_i r t heq3
        have hx := ih (i + 1)
        rw [heq3] at hx
        refine ⟨⟨by simpa using hx.1.1, by simpa using hx.1.2⟩, ?_⟩
        intro res d' h
        exact hx.2 res d' h

theorem configureNetworkAccess_sound (env : CreateEnv) (d : Driver)
    (srv : HServerCreateResult) (fuel : Nat) :
    (regsOf (configureNetworkAccess env d srv fuel).2 = []
      ∧ invsOf (configureNetworkAccess env d srv fuel).2 = [])
    ∧ ∀ res d', (configureNetworkAccess env d srv fuel).1 = some (res, d') →
        d'.dangling = d.dangling ∧ d'.serverID = d.serverID := by
  unfold configureNetworkAccess
  split
  · exact waitForPrivateNet_sound env d srv.server.id fuel 0
  · split
    · refine ⟨by simp, ?_⟩
      intro res d' h
      simp only [Option.some.injEq, Prod.mk.injEq] at h
      obtain ⟨-, rfl⟩ := h
      exact ⟨rfl, rfl⟩
    · refine ⟨by simp, ?_⟩
      intro res d' h
      simp only [Option.some.injEq, Prod.mk.injEq] at h
      obtain ⟨-, rfl⟩ := h
      exact ⟨rfl, rfl⟩

theorem dangSound_traceLeft {d d' : Driver} {t t' : List Ev}
    (h1 : regsOf t = []) (h2 : invsOf t = []) (h : DanglingSound d d' t') :
    DanglingSound d d' (t ++ t') := by
  obtain ⟨i, g⟩ := h
  exact ⟨by simp [h2, i], by simp [g, h1]⟩

theorem dangSound_midStep {d1 d2 d3 : Driver} {t : List Ev}
    (he : d2.dangling = d1.dangling) (h : DanglingSound d2 d3 t) :
    DanglingSound d1 d3 t := by
  obtain ⟨i, g⟩ := h
  exact ⟨i, by rw [g, he]⟩

theorem dangSound_createPrimaryKey (env : CreateEnv) (c : Client) (d : Driver) :
    DanglingSound d (createPrimaryKey env c d).2.1 (createPrimaryKey env c d).2.2 := by
  unfold createPrimaryKey
  split
  · split
    · simp [DanglingSound]
    · rename_i buf heq0
      split
      · rename_i e t heq
        have N := noRoll_getRemoteKeyNullable env c buf
        rw [heq] at N
        exact dangSound_self d t N.1 N.2
      · rename_i t heq
        have N := noRoll_getRemoteKeyNullable env c buf
        rw [heq] at N
        split
        · rename_i e d1 t2 heq2
          have M := dangSound_makeKey c d d.machineName buf d.keyLabels
          rw [heq2] at M
          exact dangSound_comp (dangSound_self d t N.1 N.2) M
        · rename_i k d1 t2 heq2
          have M := dangSound_makeKey c d d.machineName buf d.keyLabels
          rw [heq2] at M
          have := dangSound_comp (dangSound_self d t N.1 N.2) M
          exact ⟨this.1, by simpa using this.2⟩
      · rename_i k t heq
        have N := noRoll_getRemoteKeyNullable env c buf
        rw [heq] at N
        exact ⟨N.2, by simp [N.1]⟩
  · simp [DanglingSound]

theorem dangSound_createAdditionalKeys (env : CreateEnv) (c : Client) :
    ∀ (ks : List String) (d : Driver) (i : Nat),
      DanglingSound d (createAdditionalKeys env c d i ks).2.1
        (createAdditionalKeys env c d i ks).2.2 := by
  intro ks
  induction ks with
  | nil => intro d i; simp [createAdditionalKeys, DanglingSound]
  | cons pk rest ih =>
    intro d i
    unfold createAdditionalKeys
    split
    · rename_i e t heq
      have N := noRoll_getRemoteKeyNullable env c pk
      rw [heq] at N
      exact dangSound_self d t N.1 N.2
    · rename_i t heq
      have N := noRoll_getRemoteKeyNullable env c pk
      rw [heq] at N
      split
      · rename_i e d1 t2 heq2
        have M := dangSound_makeKey c d (d.machineName ++ "-additional-" ++ toString i)
          pk d.keyLabels
        rw [heq2] at M
        exact dangSound_comp (dangSound_self d t N.1 N.2) M
      · rename_i k d1 t2 heq2
        have M := dangSound_makeKey c d (d.machineName ++ "-additional-" ++ toString i)
          pk d.keyLabels
        rw [heq2] at M
        split
        rename_i r d3 t3 heq3
        have R := ih
          { d1 with
            additionalKeyIDs := d1.additionalKeyIDs ++ [k.id],
            cachedAdditionalKeys := d1.cachedAdditionalKeys ++ [k] } (i + 1)
        rw [heq3] at R
        exact dangSound_comp (dangSound_comp (dangSound_self d t N.1 N.2) M)
          (dangSound_midStep (by simp) R)
    · rename_i k t heq
      have N := noRoll_getRemoteKeyNullable env c pk
      rw [heq] at N
      split
      rename_i r d3 t3 heq3
      have R := ih { d with cachedAdditionalKeys := d.cachedAdditionalKeys ++ [k] } (i + 1)
      rw [heq3] at R
      exact dangSound_traceLeft N.1 N.2 (dangSound_midStep (by simp) R)

theorem dangSound_createRemoteKeys (env : CreateEnv) (c : Client) (d : Driver) :
    DanglingSound d (createRemoteKeys env c d).2.1 (createRemoteKeys env c d).2.2 := by
  unfold createRemoteKeys
  split
  · rename_i e d1 t1 heq
    have H := dangSound_createPrimaryKey env c d
    rw [heq] at H
    exact H
  · rename_i d1 t1 heq
    have H := dangSound_createPrimaryKey env c d
    rw [heq] at H
    split
    rename_i r d2 t2 heq2
    have R := dangSound_createAdditionalKeys env c d1.additionalKeys d1 0
    rw [heq2] at R
    exact dangSound_comp H R

theorem dangSound_makeCreateServerOptions (c : Client)
    (fs : String → Except String String) (d : Driver) :
    DanglingSound d (makeCreateServerOptions c fs d).2.1
      (makeCreateServerOptions c fs d).2.2 := by
  unfold makeCreateServerOptions
  split
  · rename_i e d1 t1 heq
    have H1 := dangSound_getPlacementGroup c d
    rw [heq] at H1
    exact H1
  · rename_i pgrp d1 t1 heq
    have H1 := dangSound_getPlacementGroup c d
    rw [heq] at H1
    split
    · exact H1
    · rename_i userData heq2
      split
      · rename_i e d2 t2 heq3
        have H2 := dangSound_setPublicNet c d1
          { name := d1.machineName, userData := userData,
            labels := d1.serverLabels, placementGroup := pgrp }
        rw [heq3] at H2
        exact dangSound_comp H1 H2
      · rename_i srvopts1 d2 t2 heq3
        have H2 := dangSound_setPublicNet c d1
          { name := d1.machineName, userData := userData,
            labels := d1.serverLabels, placementGroup := pgrp }
        rw [heq3] at H2
        have H12 := dangSound_comp H1 H2
        split
        · rename_i e t3 heq4
          have N3 := noRoll_createNetworks c d2.networks
          rw [heq4] at N3
          exact dangSound_traceRight H12 N3.1 N3.2
        · rename_i nets t3 heq4
          have N3 := noRoll_createNetworks c d2.networks
          rw [heq4] at N3
          have H3 := dangSound_traceRight H12 N3.1 N3.2
          split
          · rename_i e t4 heq5
            have N4 := noRoll_createFirewalls c d2.firewalls
            rw [heq5] at N4
            exact dangSound_traceRight H3 N4.1 N4.2
          · rename_i fws t4 heq5
            have N4 := noRoll_createFirewalls c d2.firewalls
            rw [heq5] at N4
            have H4 := dangSound_traceRight H3 N4.1 N4.2
            split
            · rename_i e t5 heq6
              have N5 := noRoll_createVolumes c d2.volumes
              rw [heq6] at N5
              exact dangSound_traceRight H4 N5.1 N5.2
            · rename_i vols t5 heq6
              have N5 := noRoll_createVolumes c d2.volumes
              rw [heq6] at N5
              have H5 := dangSound_traceRight H4 N5.1 N5.2
              split
              · rename_i e d3 t6 heq7
                have G6 := dangSound_getLocation c d2
                rw [heq7] at G6
                exact dangSound_comp H5 G6
              · rename_i loc d3 t6 heq7
                have G6 := dangSound_getLocation c d2
                rw [heq7] at G6
                have H6 := dangSound_comp H5 G6
                split
                · rename_i e d4 t7 heq8
                  have G7 := dangSound_getType c d3
                  rw [heq8] at G7
                  exact dangSound_comp H6 G7
                · rename_i stype d4 t7 heq8
                  have G7 := dangSound_getType c d3
                  rw [heq8] at G7
                  have H7 := dangSound_comp H6 G7
                  split
                  · rename_i e d5 t8 heq9
                    have G8 := dangSound_getImage c d4
                    rw [heq9] at G8
                    exact dangSound_comp H7 G8
                  · rename_i img d5 t8 heq9
                    have G8 := dangSound_getImage c d4
                    rw [heq9] at G8
                    have H8 := dangSound_comp H7 G8
                    split
                    · rename_i e d6 t9 heq10
                      have G9 := dangSound_getKey c d5
                      rw [heq10] at G9
                      exact dangSound_comp H8 G9
                    · rename_i key d6 t9 heq10
                      have G9 := dangSound_getKey c d5
                      rw [heq10] at G9
                      exact dangSound_comp H8 G9

theorem createAwaitAndFinish_dangling (env : CreateEnv) (c : Client) (d : Driver)
    (srv : HServerCreateResult) (fuel : Nat) :
    ∀ r d' t, createAwaitAndFinish env c d srv fuel = some (r, d', t) →
      invsOf t = [] ∧ regsOf t = []
      ∧ (∀ e, r = Except.error e → d'.dangling = d.dangling)
      ∧ (r = Except.ok () → d'.dangling = []) := by
  intro r d' t h
  unfold createAwaitAndFinish at h
  split at h
  · exact absurd h (by simp)
  · rename_i tw heq
    have NW := noRoll_waitForAction env.actPolls d srv.action fuel 0
    rw [heq] at NW
    simp only [Option.some.injEq, Prod.mk.injEq] at h
    obtain ⟨rfl, rfl, rfl⟩ := h
    refine ⟨NW.2, NW.1, fun e _ => rfl, ?_⟩
    intro hok
    exact absurd hok (by simp)
  · rename_i tw heq
    have NW := noRoll_waitForAction env.actPolls d srv.action fuel 0
    rw [heq] at NW
    split at h
    · exact absurd h (by simp)
    · rename_i tr heq2
      have NR := noRoll_waitForRunningServerLegacy env.statePolls
        { d with serverID := srv.server.id } fuel 0
      rw [heq2] at NR
      simp only [Option.some.injEq, Prod.mk.injEq] at h
      obtain ⟨rfl, rfl, rfl⟩ := h
      refine ⟨by simp [NW.2, NR.2], by simp [NW.1, NR.1], fun e _ => rfl, ?_⟩
      intro hok
      exact absurd hok (by simp)
    · rename_i tr heq2
      have NR := noRoll_waitForRunningServerLegacy env.statePolls
        { d with serverID := srv.server.id } fuel 0
      rw [heq2] at NR
      split at h
      · exact absurd h (by simp)
      · rename_i e d4 tn heq3
        have NC := configureNetworkAccess_sound env { d with serverID := srv.server.id }
          srv fuel
        rw [heq3] at NC
        have hd4 := NC.2 (Except.error e) d4 rfl
        simp only [Option.some.injEq, Prod.mk.injEq] at h
        obtain ⟨rfl, rfl, rfl⟩ := h
        refine ⟨by simp [NW.2, NR.2, NC.1.2], by simp [NW.1, NR.1, NC.1.1],
          fun e2 _ => by simpa using hd4.1, ?_⟩
        intro hok
        exact absurd hok (by simp)
      · rename_i d4 tn heq3
        have NC := configureNetworkAccess_sound env { d with serverID := srv.server.id }
          srv fuel
        rw [heq3] at NC
        simp only [Option.some.injEq, Prod.mk.injEq] at h
        obtain ⟨rfl, rfl, rfl⟩ := h
        refine ⟨by simp [NW.2, NR.2, NC.1.2], by simp [NW.1, NR.1, NC.1.1],
          ?_, fun _ => rfl⟩
        intro e habs
        exact absurd habs (by simp)

theorem createAfterKeyPrep_dangling (env : CreateEnv) (c : Client) (d : Driver)
    (fuel : Nat) :
    ∀ r d' t, createAfterKeyPrep env c d fuel = some (r, d', t) →
      invsOf t = []
      ∧ (∀ e, r = Except.error e → d'.dangling = d.dangling ++ regsOf t)
      ∧ (r = Except.ok () → d'.dangling = []) := by
  intro r d' t h
  unfold createAfterKeyPrep at h
  split at h
  · rename_i e d1 t1 heq
    have HK := dangSound_createRemoteKeys env c d
    rw [heq] at HK
    simp only [Option.some.injEq, Prod.mk.injEq] at h
    obtain ⟨rfl, rfl, rfl⟩ := h
    refine ⟨HK.1, fun e2 _ => HK.2, ?_⟩
    intro hok
    exact absurd hok (by simp)
  · rename_i d1 t1 heq
    have HK := dangSound_createRemoteKeys env c d
    rw [heq] at HK
    split at h
    · rename_i e d2 t2 heq2
      have HM := dangSound_makeCreateServerOptions c env.readFileRes d1
      rw [heq2] at HM
      have H12 := dangSound_comp HK HM
      simp only [Option.some.injEq, Prod.mk.injEq] at h
      obtain ⟨rfl, rfl, rfl⟩ := h
      refine ⟨H12.1, fun e2 _ => H12.2, ?_⟩
      intro hok
      exact absurd hok (by simp)
    · rename_i srvopts d2 t2 heq2
      have HM := dangSound_makeCreateServerOptions c env.readFileRes d1
      rw [heq2] at HM
      have H12 := dangSound_comp HK HM
      split at h
      · rename_i e heq3
        simp only [Option.some.injEq, Prod.mk.injEq] at h
        obtain ⟨rfl, rfl, rfl⟩ := h
        have H3 := @dangSound_traceRight _ _ _
          [Ev.rem (RemoteOp.serverCreateOp srvopts.name), Ev.slept d2.waitOnError]
          H12 (by simp) (by simp)
        refine ⟨H3.1, fun e2 _ => H3.2, ?_⟩
        intro hok
        exact absurd hok (by simp)
      · rename_i srv heq3
        split at h
        · exact absurd h (by simp)
        · rename_i r5 d5 t5 heq4
          have HF := createAwaitAndFinish_dangling env c d2 srv fuel r5 d5 t5 heq4
          have h12i : invsOf (t1 ++ t2) = [] := H12.1
          have h12g : d2.dangling = d.dangling ++ regsOf (t1 ++ t2) := H12.2
          simp only [invsOf_append, List.append_eq_nil] at h12i
          simp only [Option.some.injEq, Prod.mk.injEq] at h
          obtain ⟨rfl, rfl, rfl⟩ := h
          refine ⟨by simp [h12i.1, h12i.2, HF.1], ?_, ?_⟩
          · intro e he
            have hd5 := HF.2.2.1 e he
            rw [hd5, h12g]
            simp [HF.2.1, List.append_assoc]
          · intro hok
            exact HF.2.2.2 hok

/-- C1: in any completed `Create` run starting with an empty dangling
list, failure of any step after the local key preparation invokes every
compensating closure registered during the run, in registration order
(the invocation sequence equals the registration sequence), while full
success clears the dangling list and invokes no closure at all. -/
theorem create_rollback_protocol :
    ∀ (env : CreateEnv) (c : Client) (d : Driver) (fuel : Nat) r d1 evs,
      d.dangling = [] →
      Create env c d fuel = some (r, d1, evs) →
      ((r = Except.ok () → d1.dangling = [] ∧ invsOf evs = [])
        ∧ (∀ e, r = Except.error e → invsOf evs = regsOf evs)) := by
  intro env c d fuel r d1 evs hnil h
  unfold Create at h
  split at h
  · rename_i e heq
    simp only [Option.some.injEq, Prod.mk.injEq] at h
    obtain ⟨rfl, rfl, rfl⟩ := h
    constructor
    · intro hok
      exact absurd hok (by simp)
    · intro e2 _
      rfl
  · split at h
    · exact absurd h (by simp)
    · rename_i r0 d0 t0 heq2
      have HB := createAfterKeyPrep_dangling env c d fuel r0 d0 t0 heq2
      simp only [Option.some.injEq, Prod.mk.injEq] at h
      obtain ⟨rfl, rfl, rfl⟩ := h
      constructor
      · intro hok
        have hd0 := HB.2.2 hok
        refine ⟨hd0, ?_⟩
        simp [destroyDangling, hd0, HB.1]
      · intro e he
        have hd0 := HB.2.1 e he
        simp [destroyDangling, HB.1, hd0, hnil]

/-- Witness for C1: a run that uploads a fresh primary key and then fails
at server creation invokes exactly the registered delete-key closure. -/
theorem create_rollback_protocol_witness :
    invsOf wOut.2.2 = regsOf wOut.2.2
    ∧ invsOf wOut.2.2 = [Dangling.deleteKey wKey] :=
  ⟨(create_rollback_protocol wEnv wClient wDriver 3 wOut.1 wOut.2.1 wOut.2.2
      rfl rfl).2 "could not create server: cap" rfl, rfl⟩

/-- Counterexample to C2 as stated: in a completed `Create` run the
creation request succeeds — every create call returns server ID 42 — yet
after the driver awaits the creation action (which fails here), the run
ends with the stored server identifier still 0: the identifier is not
stored upon the successful creation response. -/
theorem create_claim2_counterexample :
    cexClient.serverCreate = (fun _ => Except.ok cexCreateResult)
    ∧ cexCreateResult.server.id = 42
    ∧ (Create cexEnv cexClient cexDriver 3).map (fun out => (out.1, out.2.1.serverID))
        = some (Except.error "could not wait for action: boom", 0) :=
  ⟨rfl, rfl, rfl⟩

/-- C2 (amended): in the `Create` tail that follows a successful creation
response, the driver first awaits the creation action; only when that
await succeeds is the stored identifier set to the new server's ID (and
it then survives to the end of the run, through the running wait and
network configuration); when the await fails, the identifier keeps its
previous value. -/
theorem createAwaitAndFinish_serverID :
    ∀ (env : CreateEnv) (c : Client) (d : Driver) (srv : HServerCreateResult)
      (fuel : Nat) r d' t,
      createAwaitAndFinish env c d srv fuel = some (r, d', t) →
      (((waitForAction env.actPolls d srv.action 0 fuel).1 = some (Except.ok ()) →
          d'.serverID = srv.server.id)
        ∧ (∀ e, (waitForAction env.actPolls d srv.action 0 fuel).1
              = some (Except.error e) →
            d'.serverID = d.serverID)) := by
  intro env c d srv fuel r d' t h
  unfold createAwaitAndFinish at h
  split at h
  · exact absurd h (by simp)
  · rename_i e tw heq
    simp only [Option.some.injEq, Prod.mk.injEq] at h
    obtain ⟨rfl, rfl, rfl⟩ := h
    constructor
    · intro hok
      rw [heq] at hok
      simp at hok
    · intro e2 _
      rfl
  · rename_i tw heq
    constructor
    · intro _
      split at h
      · exact absurd h (by simp)
      · rename_i e tr heq2
        simp only [Option.some.injEq, Prod.mk.injEq] at h
        obtain ⟨rfl, rfl, rfl⟩ := h
        rfl
      · rename_i tr heq2
        split at h
        · exact absurd h (by simp)
        · rename_i e d4 tn heq3
          have NC := configureNetworkAccess_sound env
            { d with serverID := srv.server.id } srv fuel
          rw [heq3] at NC
          have hd4 := (NC.2 (Except.error e) d4 rfl).2
          simp only [Option.some.injEq, Prod.mk.injEq] at h
          obtain ⟨rfl, rfl, rfl⟩ := h
          simpa using hd4
        · rename_i d4 tn heq3
          have NC := configureNetworkAccess_sound env
            { d with serverID := srv.server.id } srv fuel
          rw [heq3] at NC
          have hd4 := (NC.2 (Except.ok ()) d4 rfl).2
          simp only [Option.some.injEq, Prod.mk.injEq] at h
          obtain ⟨rfl, rfl, rfl⟩ := h
          simpa using hd4
    · intro e2 habs
      rw [heq] at habs
      simp at habs

/-- Witness for the amended C2: with a succeeding action await, the tail
run stores identifier 42 (the created server's ID) in the final state. -/
theorem createAwaitAndFinish_serverID_witness :
    w2Out.2.1.serverID = 42 :=
  (createAwaitAndFinish_serverID w2Env errClient cexDriver cexCreateResult 3
    w2Out.1 w2Out.2.1 w2Out.2.2 rfl).1 rfl

end HetznerDriver
